import Mathlib

/-!
Full-duplex Ethernet link over two half-duplex sub-links.

A shallow embedding of `EthernetChannel` (src/model/ethernet-channel.cc) and of
`EthernetNetDevice` and `ProxyTracedCallback` (src/model/ethernet-net-device.cc).

Objects live in a heap indexed by object identity.  A `Ptr<T>` is an
`Option` of an identity (`none` is the null pointer); the two half-duplex
interfaces of an endpoint and the two half-duplex sub-links of a link are
exclusively owned, so their state is stored inside the owner and a pointer to
one of them is the owner identity plus a selector.  `NS_ASSERT` failures and
null dereferences abort the program: every operation that can do so returns
`Except Fatal`.  Calls that leave the modelled code (frames offered to an
interface, callbacks of the surrounding framework, disposal of an interface)
are recorded in the trace of the `World`; trace operations on objects are
recorded in a `TraceState` of their own.
-/

namespace Ethernet

/-! ## Values -/

/-- Identity of an `EthernetNetDevice` object. -/
abbrev DevId := Nat

/-- Identity of an `EthernetChannel` object. -/
abbrev ChanId := Nat

/-- Identity of a `Node` object. -/
abbrev NodeId := Nat

/-- Identity of a callback object registered by the surrounding framework. -/
abbrev CallbackId := Nat

/-- Transmission rate in bits per second (`ns3::DataRate`). -/
abbrev DataRate := Nat

/-- Simulated duration in time steps (`ns3::Time`). -/
abbrev Time := Int

/-- Payload of a packet, byte by byte. -/
abbrev Packet := List Nat

/-- Why the program aborted. -/
inductive Fatal where
  /-- An `NS_ASSERT` or `NS_ASSERT_MSG` did not hold. -/
  | assertion
  /-- A null `Ptr` was dereferenced. -/
  | nullPointer
  /-- The attribute system rejected a name or a value (`NS_FATAL_ERROR`). -/
  | attribute
deriving DecidableEq, Repr

deriving instance DecidableEq for Except

/-- Dereference of a `Ptr` (`operator->`): a null pointer aborts. -/
def deref {α : Type} : Option α → Except Fatal α
  | none => Except.error Fatal.nullPointer
  | some a => Except.ok a

/-- The check `NS_ASSERT (cond)`, in a build with assertions enabled: abort unless the
condition holds. -/
def NS_ASSERT (cond : Bool) : Except Fatal Unit :=
  if cond then Except.ok () else Except.error Fatal.assertion

/-- A 48-bit MAC address (`ns3::Mac48Address`), as its numeric value. -/
structure Mac48Address where
  val : Nat
deriving DecidableEq, Repr

/-- Generic address (`ns3::Address`): a converted MAC-48 address or an address of another kind. -/
inductive Address where
  | mac48 (m : Mac48Address)
  | other (type : Nat) (bytes : List Nat)
deriving DecidableEq, Repr

/-- Conversion `Mac48Address::operator Address ()`. -/
def Mac48Address.ConvertTo (m : Mac48Address) : Address := Address.mac48 m

/-- Conversion `Mac48Address::ConvertFrom`: asserts that the address is a MAC-48 address. -/
def Mac48Address.ConvertFrom : Address → Except Fatal Mac48Address
  | Address.mac48 m => Except.ok m
  | Address.other _ _ => Except.error Fatal.assertion

/-- The all-ones address `ff:ff:ff:ff:ff:ff`. -/
def Mac48Address.broadcast : Mac48Address := ⟨2 ^ 48 - 1⟩

/-- Link-layer encapsulation (`CsmaNetDevice::EncapsulationMode`). -/
inductive EncapsulationMode where
  | ILLEGAL
  | DIX
  | LLC
deriving DecidableEq, Repr

/-- Value handed to the attribute system (`DataRateValue`, `TimeValue`). -/
inductive AttributeValue where
  | dataRate (bps : DataRate)
  | time (t : Time)
deriving DecidableEq, Repr

/-! ## Pointers to the owned half-duplex objects -/

/-- Which of an endpoint's two half-duplex interfaces (`m_txDev`, `m_rxDev`). -/
inductive SubIface where
  | tx
  | rx
deriving DecidableEq, Repr

/-- Which of a link's two half-duplex sub-links (`m_chan0`, `m_chan1`). -/
inductive SubLink where
  | chan0
  | chan1
deriving DecidableEq, Repr

/-- A non-null `Ptr<CsmaNetDevice>`: the interface `side` of endpoint `dev`. -/
structure IfaceRef where
  dev : DevId
  side : SubIface
deriving DecidableEq, Repr

/-- A non-null `Ptr<CsmaChannel>`: the sub-link `which` of link `chan`. -/
structure SubLinkRef where
  chan : ChanId
  which : SubLink
deriving DecidableEq, Repr

/-- A non-null `Ptr<NetDevice>`: an endpoint or one of the half-duplex interfaces. -/
inductive NetDeviceRef where
  | ethernet (d : DevId)
  | csma (i : IfaceRef)
deriving DecidableEq, Repr

/-- The enumeration `NetDevice::PacketType`. -/
inductive PacketType where
  | PACKET_HOST
  | PACKET_BROADCAST
  | PACKET_MULTICAST
  | PACKET_OTHERHOST
deriving DecidableEq, Repr

/-- A `NetDevice::ReceiveCallback` as a half-duplex interface can hold it: null, a callback
made by the surrounding framework, or the bound member callback
`MakeCallback (&EthernetNetDevice::NonPromiscReceiveFromDevice, self)`, which only the
endpoint `self` can make, the member function being private. -/
inductive ReceiveCallback where
  | null
  | user (id : CallbackId)
  | NonPromiscReceiveFromDevice (self : DevId)
deriving DecidableEq, Repr

/-- A `NetDevice::PromiscReceiveCallback` as a half-duplex interface can hold it: null, a
callback made by the surrounding framework, or the bound member callback
`MakeCallback (&EthernetNetDevice::PromiscReceiveFromDevice, self)`. -/
inductive PromiscReceiveCallback where
  | null
  | user (id : CallbackId)
  | PromiscReceiveFromDevice (self : DevId)
deriving DecidableEq, Repr

/-- A receive callback of the surrounding framework, null when `none`, as a `ReceiveCallback`. -/
def ReceiveCallback.ofUser : Option CallbackId → ReceiveCallback
  | none => ReceiveCallback.null
  | some id => ReceiveCallback.user id

/-- A promiscuous receive callback of the surrounding framework, null when `none`, as a
`PromiscReceiveCallback`. -/
def PromiscReceiveCallback.ofUser : Option CallbackId → PromiscReceiveCallback
  | none => PromiscReceiveCallback.null
  | some id => PromiscReceiveCallback.user id

/-! ## The half-duplex primitives (external collaborators, at their boundary) -/

/-- State of a half-duplex interface (`ns3::CsmaNetDevice`) as far as the endpoint drives it. -/
structure CsmaNetDevice where
  m_address : Mac48Address
  m_mtu : Nat
  m_encapMode : EncapsulationMode
  m_channel : Option SubLinkRef
  m_node : Option NodeId
  m_rxCallback : ReceiveCallback
  m_promiscRxCallback : PromiscReceiveCallback
deriving DecidableEq, Repr

/-- State of a half-duplex sub-link (`ns3::CsmaChannel`) as far as the link drives it. -/
structure CsmaChannel where
  m_bps : DataRate
  m_delay : Time
  m_deviceList : List IfaceRef
deriving DecidableEq, Repr

/-- A `CsmaNetDevice` as `CreateObject<CsmaNetDevice> ()` leaves it: attribute defaults, no channel. -/
def CsmaNetDevice.fresh : CsmaNetDevice :=
  { m_address := Mac48Address.broadcast, m_mtu := 1500, m_encapMode := EncapsulationMode.DIX,
    m_channel := none, m_node := none, m_rxCallback := ReceiveCallback.null,
    m_promiscRxCallback := PromiscReceiveCallback.null }

/-- A `CsmaChannel` as `CreateObject<CsmaChannel> ()` leaves it: attribute defaults, nothing attached. -/
def CsmaChannel.fresh : CsmaChannel :=
  { m_bps := 0xffffffff, m_delay := 0, m_deviceList := [] }

/-- Boundary of `CsmaNetDevice::SetAddress (Address)`. -/
def CsmaNetDevice.SetAddress (i : CsmaNetDevice) (address : Address) : Except Fatal CsmaNetDevice := do
  let m ← Mac48Address.ConvertFrom address
  pure { i with m_address := m }

/-- Boundary of `CsmaNetDevice::SetMtu`. -/
def CsmaNetDevice.SetMtu (i : CsmaNetDevice) (mtu : Nat) : CsmaNetDevice :=
  { i with m_mtu := mtu % 2 ^ 16 }

/-- Boundary of `CsmaNetDevice::SetNode`. -/
def CsmaNetDevice.SetNode (i : CsmaNetDevice) (node : Option NodeId) : CsmaNetDevice :=
  { i with m_node := node }

/-- Boundary of `CsmaNetDevice::SetReceiveCallback`. -/
def CsmaNetDevice.SetReceiveCallback (i : CsmaNetDevice) (cb : ReceiveCallback) : CsmaNetDevice :=
  { i with m_rxCallback := cb }

/-- Boundary of `CsmaNetDevice::SetPromiscReceiveCallback`. -/
def CsmaNetDevice.SetPromiscReceiveCallback (i : CsmaNetDevice) (cb : PromiscReceiveCallback) :
    CsmaNetDevice :=
  { i with m_promiscRxCallback := cb }

/-- Boundary of `CsmaNetDevice::SetEncapsulationMode`. -/
def CsmaNetDevice.SetEncapsulationMode (i : CsmaNetDevice) (mode : EncapsulationMode) : CsmaNetDevice :=
  { i with m_encapMode := mode }

/-- Boundary of `CsmaChannel::SetAttribute (name, value)` for the two attributes the link uses. -/
def CsmaChannel.SetAttribute (ch : CsmaChannel) (name : String) (v : AttributeValue) :
    Except Fatal CsmaChannel :=
  if name = "DataRate" then
    match v with
    | AttributeValue.dataRate bps => Except.ok { ch with m_bps := bps }
    | AttributeValue.time _ => Except.error Fatal.attribute
  else if name = "Delay" then
    match v with
    | AttributeValue.time t => Except.ok { ch with m_delay := t }
    | AttributeValue.dataRate _ => Except.error Fatal.attribute
  else Except.error Fatal.attribute

/-- Boundary of `CsmaChannel::GetAttribute (name, value)`: what the sub-link reports. -/
def CsmaChannel.GetAttribute (ch : CsmaChannel) (name : String) : Except Fatal AttributeValue :=
  if name = "DataRate" then Except.ok (AttributeValue.dataRate ch.m_bps)
  else if name = "Delay" then Except.ok (AttributeValue.time ch.m_delay)
  else Except.error Fatal.attribute

/-! ## The full-duplex link, `EthernetChannel` -/

/-- The constant `EthernetChannel::N_DEVICES`. -/
abbrev N_DEVICES : Nat := 2

/-- Private members of `EthernetChannel` (ethernet-channel.h, lines 96 to 106). -/
structure EthernetChannel where
  m_devices : Fin N_DEVICES → Option DevId
  m_nDevices : Nat
  m_chan0 : Option CsmaChannel
  m_chan1 : Option CsmaChannel
  m_bps : DataRate
  m_delay : Time

/-- Constructor `EthernetChannel::EthernetChannel ()`.  It creates the two sub-links and
nothing else: `m_devices` holds null pointers, `m_bps` and `m_delay` are default constructed
and `m_nDevices`, a plain `uint32_t` without initialiser, keeps whatever value `garbage` the
storage held. -/
def EthernetChannel.ctor (garbage : Nat) : EthernetChannel :=
  { m_devices := fun _ => none
    m_nDevices := garbage % 2 ^ 32
    m_chan0 := some CsmaChannel.fresh
    m_chan1 := some CsmaChannel.fresh
    m_bps := 0
    m_delay := 0 }

/-- Accessor `EthernetChannel::GetNDevices`. -/
def EthernetChannel.GetNDevices (c : EthernetChannel) : Nat := c.m_nDevices

/-- Accessor `EthernetChannel::GetEthernetDevice`: guarded by `NS_ASSERT (i < 2)`. -/
def EthernetChannel.GetEthernetDevice (c : EthernetChannel) (i : Nat) : Except Fatal (Option DevId) :=
  if h : i < 2 then Except.ok (c.m_devices ⟨i, h⟩) else Except.error Fatal.assertion

/-- Accessor `EthernetChannel::GetDevice`. -/
def EthernetChannel.GetDevice (c : EthernetChannel) (i : Nat) : Except Fatal (Option DevId) :=
  c.GetEthernetDevice i

/-- Accessor `EthernetChannel::GetDataRate`. -/
def EthernetChannel.GetDataRate (c : EthernetChannel) : DataRate := c.m_bps

/-- Accessor `EthernetChannel::GetDelay`. -/
def EthernetChannel.GetDelay (c : EthernetChannel) : Time := c.m_delay

/-- Mutator `EthernetChannel::SetDataRate`: store, then set the attribute on both sub-links. -/
def EthernetChannel.SetDataRate (c : EthernetChannel) (bps : DataRate) :
    Except Fatal (Bool × EthernetChannel) := do
  let c1 := { c with m_bps := bps }
  let bpsValue := AttributeValue.dataRate bps
  let a ← deref c1.m_chan0
  let a1 ← a.SetAttribute "DataRate" bpsValue
  let c2 := { c1 with m_chan0 := some a1 }
  let b ← deref c2.m_chan1
  let b1 ← b.SetAttribute "DataRate" bpsValue
  pure (true, { c2 with m_chan1 := some b1 })

/-- Mutator `EthernetChannel::SetDelay`: store, then set the attribute on both sub-links. -/
def EthernetChannel.SetDelay (c : EthernetChannel) (delay : Time) :
    Except Fatal (Bool × EthernetChannel) := do
  let c1 := { c with m_delay := delay }
  let delayValue := AttributeValue.time delay
  let a ← deref c1.m_chan0
  let a1 ← a.SetAttribute "Delay" delayValue
  let c2 := { c1 with m_chan0 := some a1 }
  let b ← deref c2.m_chan1
  let b1 ← b.SetAttribute "Delay" delayValue
  pure (true, { c2 with m_chan1 := some b1 })

/-- Attribute values a factory passes to `CreateObject<EthernetChannel>`; an absent one
takes the initial value registered in `EthernetChannel::GetTypeId`. -/
structure ChannelAttributes where
  DataRate : Option DataRate
  Delay : Option Time

/-- Object construction: the constructor, then the attribute system calls the registered
setter of every attribute (`GetTypeId`: "DataRate" with initial value `0xffffffff` through
`SetDataRate`, "Delay" with initial value `Seconds (0)` through `SetDelay`). -/
def EthernetChannel.CreateObject (garbage : Nat) (attrs : ChannelAttributes) :
    Except Fatal EthernetChannel := do
  let (_, c1) ← (EthernetChannel.ctor garbage).SetDataRate (attrs.DataRate.getD 0xffffffff)
  let (_, c2) ← c1.SetDelay (attrs.Delay.getD 0)
  pure c2

/-! ## The duplex endpoint, `EthernetNetDevice` -/

/-- Private members of `EthernetNetDevice` (ethernet-net-device.h).  `m_linkChangeCallbacks`
is the list of callbacks connected to the `TracedCallback<>`, in connection order;
`m_rxCallback` and `m_promiscRxCallback` hold a callback of the surrounding framework, null
when `none`.  The ten `ProxyTracedCallback` members, which only the constructor writes, are
given by `EthernetNetDevice.ctorTraces`. -/
structure EthernetNetDevice where
  m_linkUp : Bool
  m_encapMode : EncapsulationMode
  m_node : Option NodeId
  m_channel : Option ChanId
  m_txDev : Option CsmaNetDevice
  m_rxDev : Option CsmaNetDevice
  m_ifIndex : Nat
  m_mtu : Nat
  m_address : Mac48Address
  m_linkChangeCallbacks : List CallbackId
  m_rxCallback : Option CallbackId
  m_promiscRxCallback : Option CallbackId
deriving DecidableEq, Repr

/-- The constant `EthernetNetDevice::DEFAULT_MTU`. -/
def DEFAULT_MTU : Nat := 1500

/-- Constructor `EthernetNetDevice::EthernetNetDevice ()`: link down, DIX, no node, no
channel, both interfaces created.  `m_ifIndex` and `m_mtu` have no initialiser and keep the values
`ifIndex0` and `mtu0` of the storage; `m_address` is default constructed (all zero). -/
def EthernetNetDevice.ctor (ifIndex0 mtu0 : Nat) : EthernetNetDevice :=
  { m_linkUp := false
    m_encapMode := EncapsulationMode.DIX
    m_node := none
    m_channel := none
    m_txDev := some CsmaNetDevice.fresh
    m_rxDev := some CsmaNetDevice.fresh
    m_ifIndex := ifIndex0 % 2 ^ 32
    m_mtu := mtu0 % 2 ^ 32
    m_address := ⟨0⟩
    m_linkChangeCallbacks := []
    m_rxCallback := none
    m_promiscRxCallback := none }

/-- Accessor `EthernetNetDevice::GetTxDevice`. -/
def EthernetNetDevice.GetTxDevice (d : EthernetNetDevice) : Option CsmaNetDevice := d.m_txDev

/-- Accessor `EthernetNetDevice::GetRxDevice`. -/
def EthernetNetDevice.GetRxDevice (d : EthernetNetDevice) : Option CsmaNetDevice := d.m_rxDev

/-- The interface a `Ptr<CsmaNetDevice>` with selector `s` designates inside its owner. -/
def EthernetNetDevice.iface (d : EthernetNetDevice) : SubIface → Option CsmaNetDevice
  | SubIface.tx => d.GetTxDevice
  | SubIface.rx => d.GetRxDevice

/-- Write back the state of the interface with selector `s`. -/
def EthernetNetDevice.setIface (d : EthernetNetDevice) (s : SubIface) (i : CsmaNetDevice) :
    EthernetNetDevice :=
  match s with
  | SubIface.tx => { d with m_txDev := some i }
  | SubIface.rx => { d with m_rxDev := some i }

/-- Accessor `EthernetNetDevice::GetNode`. -/
def EthernetNetDevice.GetNode (d : EthernetNetDevice) : Option NodeId := d.m_node

/-- Mutator `EthernetNetDevice::SetNode`: store, then pass on to the rx and the tx interface. -/
def EthernetNetDevice.SetNode (d : EthernetNetDevice) (node : Option NodeId) :
    Except Fatal EthernetNetDevice := do
  let d1 := { d with m_node := node }
  let rx ← deref d1.m_rxDev
  let d2 := { d1 with m_rxDev := some (rx.SetNode node) }
  let tx ← deref d2.m_txDev
  pure { d2 with m_txDev := some (tx.SetNode node) }

/-- Mutator `EthernetNetDevice::SetMac48Address`. -/
def EthernetNetDevice.SetMac48Address (d : EthernetNetDevice) (address : Mac48Address) :
    Except Fatal (Bool × EthernetNetDevice) := do
  let d1 := { d with m_address := address }
  let tx ← deref d1.m_txDev
  let tx1 ← tx.SetAddress address.ConvertTo
  let d2 := { d1 with m_txDev := some tx1 }
  let rx ← deref d2.m_rxDev
  let rx1 ← rx.SetAddress address.ConvertTo
  pure (true, { d2 with m_rxDev := some rx1 })

/-- Accessor `EthernetNetDevice::GetMac48Address`. -/
def EthernetNetDevice.GetMac48Address (d : EthernetNetDevice) : Mac48Address := d.m_address

/-- Mutator `EthernetNetDevice::SetEncapsulationMode`. -/
def EthernetNetDevice.SetEncapsulationMode (d : EthernetNetDevice) (mode : EncapsulationMode) :
    Except Fatal EthernetNetDevice := do
  let d1 := { d with m_encapMode := mode }
  let tx ← deref d1.m_txDev
  pure { d1 with m_txDev := some (tx.SetEncapsulationMode mode) }

/-- Accessor `EthernetNetDevice::GetEncapsulationMode`. -/
def EthernetNetDevice.GetEncapsulationMode (d : EthernetNetDevice) : EncapsulationMode :=
  d.m_encapMode

/-- Mutator `EthernetNetDevice::SetMtu`; the parameter is a `uint16_t`. -/
def EthernetNetDevice.SetMtu (d : EthernetNetDevice) (mtu : Nat) :
    Except Fatal (Bool × EthernetNetDevice) := do
  let mtu16 := mtu % 2 ^ 16
  let d1 := { d with m_mtu := mtu16 }
  let tx ← deref d1.m_txDev
  pure (true, { d1 with m_txDev := some (tx.SetMtu mtu16) })

/-- Accessor `EthernetNetDevice::GetMtu`; the `uint32_t` member is returned as `uint16_t`. -/
def EthernetNetDevice.GetMtu (d : EthernetNetDevice) : Nat := d.m_mtu % 2 ^ 16

/-- Mutator `EthernetNetDevice::SetAddress`. -/
def EthernetNetDevice.SetAddress (d : EthernetNetDevice) (address : Address) :
    Except Fatal EthernetNetDevice := do
  let m ← Mac48Address.ConvertFrom address
  let (_, d1) ← d.SetMac48Address m
  pure d1

/-- Accessor `EthernetNetDevice::GetAddress`. -/
def EthernetNetDevice.GetAddress (d : EthernetNetDevice) : Address := d.m_address.ConvertTo

/-- Accessor `EthernetNetDevice::GetChannel`. -/
def EthernetNetDevice.GetChannel (d : EthernetNetDevice) : Option ChanId := d.m_channel

/-- Object construction of an endpoint with the registered initial values of `GetTypeId`:
the constructor, then `SetMac48Address (ff:ff:ff:ff:ff:ff)`, `SetMtu (DEFAULT_MTU)` and
`SetEncapsulationMode (DIX)`. -/
def EthernetNetDevice.CreateObject (ifIndex0 mtu0 : Nat) : Except Fatal EthernetNetDevice := do
  let (_, d1) ← (EthernetNetDevice.ctor ifIndex0 mtu0).SetMac48Address Mac48Address.broadcast
  let (_, d2) ← d1.SetMtu DEFAULT_MTU
  d2.SetEncapsulationMode EncapsulationMode.DIX

/-! ## The object heap and the observable trace -/

/-- All endpoints and links, by identity. -/
structure Heap where
  devices : DevId → EthernetNetDevice
  channels : ChanId → EthernetChannel

/-- A frame offered to a half-duplex interface for transmission. -/
structure Frame where
  packet : Packet
  source : Address
  destination : Address
  protocolNumber : Nat
deriving DecidableEq, Repr

/-- What the code does to its surroundings, in order. -/
inductive Event where
  /-- A frame was offered to a half-duplex interface for transmission, which returned `result`. -/
  | frameOffered (iface : IfaceRef) (frame : Frame) (result : Bool)
  /-- A link-change observer was invoked, without argument; `seen` is the state of all objects
  at that moment, which is all the observer can query. -/
  | linkChange (callback : CallbackId) (seen : Heap)
  /-- A receive callback of the surrounding framework was invoked with these arguments and
  returned `result`. -/
  | receive (callback : CallbackId) (device : NetDeviceRef) (packet : Packet) (protocol : Nat)
      (sender : Address) (result : Bool)
  /-- A promiscuous receive callback of the surrounding framework was invoked with these
  arguments and returned `result`. -/
  | promiscReceive (callback : CallbackId) (device : NetDeviceRef) (packet : Packet)
      (protocol : Nat) (sender receiver : Address) (packetType : PacketType) (result : Bool)
  /-- `Dispose ()` was called on a half-duplex interface. -/
  | csmaDispose (iface : IfaceRef)

/-- The heap together with the trace of events so far. -/
structure World extends Heap where
  trace : List Event

/-- Replace the state of endpoint `d`. -/
def World.setDevice (w : World) (d : DevId) (x : EthernetNetDevice) : World :=
  { w with devices := Function.update w.devices d x }

/-- Replace the state of link `c`. -/
def World.setChannel (w : World) (c : ChanId) (x : EthernetChannel) : World :=
  { w with channels := Function.update w.channels c x }

/-- The sub-link a `Ptr<CsmaChannel>` with selector `s` designates inside its owner. -/
def EthernetChannel.subLink (c : EthernetChannel) : SubLink → Option CsmaChannel
  | SubLink.chan0 => c.m_chan0
  | SubLink.chan1 => c.m_chan1

/-- Write back the state of the sub-link with selector `s`. -/
def EthernetChannel.setSubLink (c : EthernetChannel) (s : SubLink) (ch : CsmaChannel) :
    EthernetChannel :=
  match s with
  | SubLink.chan0 => { c with m_chan0 := some ch }
  | SubLink.chan1 => { c with m_chan1 := some ch }

/-- One line `m_devices[k]->Get?xDevice ()->Attach (m_chan?)` of the cross-wiring, with the
boundary of `CsmaNetDevice::Attach (ch)`: the interface stores the sub-link as its channel and
the sub-link appends the interface to its device list (`CsmaChannel::Attach`). -/
def csmaAttach (w : World) (dev : Option DevId) (side : SubIface) (chan : ChanId) (sub : SubLink) :
    Except Fatal World := do
  let d ← deref dev
  let i ← deref ((w.devices d).iface side)
  let ch ← deref ((w.channels chan).subLink sub)
  let w1 := w.setDevice d ((w.devices d).setIface side { i with m_channel := some ⟨chan, sub⟩ })
  pure (w1.setChannel chan ((w1.channels chan).setSubLink sub
    { ch with m_deviceList := ch.m_deviceList ++ [⟨d, side⟩] }))

/-- Method `EthernetChannel::Attach` on the link `self`. -/
def EthernetChannel.Attach (w : World) (self : ChanId) (dev : Option DevId) : Except Fatal World :=
  let c := w.channels self
  if h : c.m_nDevices < N_DEVICES then do
    NS_ASSERT dev.isSome
    let c1 := { c with
      m_devices := Function.update c.m_devices ⟨c.m_nDevices, h⟩ dev
      m_nDevices := c.m_nDevices + 1 }
    let w1 := w.setChannel self c1
    if c1.m_nDevices = N_DEVICES then do
      let w2 ← csmaAttach w1 ((w1.channels self).m_devices 0) SubIface.tx self SubLink.chan0
      let w3 ← csmaAttach w2 ((w2.channels self).m_devices 0) SubIface.rx self SubLink.chan1
      let w4 ← csmaAttach w3 ((w3.channels self).m_devices 1) SubIface.tx self SubLink.chan1
      csmaAttach w4 ((w4.channels self).m_devices 1) SubIface.rx self SubLink.chan0
    else pure w1
  else Except.error Fatal.assertion

/-- Method `EthernetNetDevice::NotifyLinkUp` on the endpoint `self`: raise the flag, then
invoke every connected link-change callback, in connection order, without argument. -/
def EthernetNetDevice.NotifyLinkUp (w : World) (self : DevId) : World :=
  let w1 := w.setDevice self { w.devices self with m_linkUp := true }
  { w1 with trace := w1.trace ++
      (w1.devices self).m_linkChangeCallbacks.map (fun cb => Event.linkChange cb w1.toHeap) }

/-- Method `EthernetNetDevice::Attach` on the endpoint `self`. -/
def EthernetNetDevice.Attach (w : World) (self : DevId) (channel : Option ChanId) :
    Except Fatal (Bool × World) := do
  NS_ASSERT channel.isSome
  let w1 := w.setDevice self { w.devices self with m_channel := channel }
  let ch ← deref (w1.devices self).m_channel
  let w2 ← EthernetChannel.Attach w1 ch (some self)
  pure (true, EthernetNetDevice.NotifyLinkUp w2 self)

/-- Outcome of a transmission request as decided by the half-duplex interface (queue and MTU
policy): any function of the state and history so far, the interface and the frame. -/
abbrev SendPolicy := World → IfaceRef → Frame → Bool

/-- Boundary of `CsmaNetDevice::SendFrom` on the interface `i`: the interface decides, and the
frame it was offered is recorded together with the answer. -/
def CsmaNetDevice.SendFrom (P : SendPolicy) (w : World) (i : IfaceRef) (packet : Packet)
    (src dest : Address) (protocolNumber : Nat) : Bool × World :=
  let r := P w i ⟨packet, src, dest, protocolNumber⟩
  (r, { w with trace := w.trace ++ [Event.frameOffered i ⟨packet, src, dest, protocolNumber⟩ r] })

/-- Boundary of `CsmaNetDevice::Send` on the interface `i` whose state is `self`: it is
`SendFrom (packet, m_address, dest, protocolNumber)`, the interface's own address being the source. -/
def CsmaNetDevice.Send (P : SendPolicy) (w : World) (i : IfaceRef) (self : CsmaNetDevice)
    (packet : Packet) (dest : Address) (protocolNumber : Nat) : Bool × World :=
  CsmaNetDevice.SendFrom P w i packet self.m_address.ConvertTo dest protocolNumber

/-- Method `EthernetNetDevice::Send` on the endpoint `self`. -/
def EthernetNetDevice.Send (P : SendPolicy) (w : World) (self : DevId) (packet : Packet)
    (dest : Address) (protocolNumber : Nat) : Except Fatal (Bool × World) := do
  let tx ← deref (w.devices self).m_txDev
  pure (CsmaNetDevice.Send P w ⟨self, SubIface.tx⟩ tx packet dest protocolNumber)

/-- Method `EthernetNetDevice::SendFrom` on the endpoint `self`. -/
def EthernetNetDevice.SendFrom (P : SendPolicy) (w : World) (self : DevId) (packet : Packet)
    (src dest : Address) (protocolNumber : Nat) : Except Fatal (Bool × World) := do
  let _ ← deref (w.devices self).m_txDev
  pure (CsmaNetDevice.SendFrom P w ⟨self, SubIface.tx⟩ packet src dest protocolNumber)

/-! ## Sequences of calls and well-formed states -/

/-- Both sub-links exist: the link has not been disposed (`DoDispose` alone nulls them). -/
def EthernetChannel.isLive (c : EthernetChannel) : Bool :=
  c.m_chan0.isSome && c.m_chan1.isSome

/-- Both interfaces exist: the endpoint has not been disposed (`DoDispose` alone nulls them). -/
def EthernetNetDevice.isLive (d : EthernetNetDevice) : Bool :=
  d.m_txDev.isSome && d.m_rxDev.isSome

/-- Call `EthernetChannel::Attach` on link `L` once for each endpoint of the list, in order;
the first fatal failure ends the run. -/
def attachAll (w : World) (L : ChanId) : List (Option DevId) → Except Fatal World
  | [] => pure w
  | d :: ds => do
    let w1 ← EthernetChannel.Attach w L d
    attachAll w1 L ds

/-- A call on a link. -/
inductive LinkOp where
  | attach (dev : Option DevId)
  | setDataRate (bps : DataRate)
  | setDelay (delay : Time)

/-- Perform one call on link `L`. -/
def LinkOp.run (w : World) (L : ChanId) : LinkOp → Except Fatal World
  | LinkOp.attach dev => EthernetChannel.Attach w L dev
  | LinkOp.setDataRate bps => do
    let (_, c) ← (w.channels L).SetDataRate bps
    pure (w.setChannel L c)
  | LinkOp.setDelay delay => do
    let (_, c) ← (w.channels L).SetDelay delay
    pure (w.setChannel L c)

/-- Perform the calls of the list on link `L`, in order; the first fatal failure ends the run. -/
def runLinkOps (w : World) (L : ChanId) : List LinkOp → Except Fatal World
  | [] => pure w
  | op :: ops => do
    let w1 ← op.run w L
    runLinkOps w1 L ops

/-- What sub-link `s` of a link reports for the attribute `name`. -/
def EthernetChannel.subLinkAttribute (c : EthernetChannel) (s : SubLink) (name : String) :
    Except Fatal AttributeValue := do
  let ch ← deref (c.subLink s)
  ch.GetAttribute name

/-- The link as `CreateObject` leaves it when the storage of `m_nDevices` held `garbage`. -/
def EthernetChannel.created (garbage : Nat) (attrs : ChannelAttributes) : EthernetChannel :=
  { m_devices := fun _ => none
    m_nDevices := garbage % 2 ^ 32
    m_chan0 := some { CsmaChannel.fresh with
      m_bps := attrs.DataRate.getD 0xffffffff, m_delay := attrs.Delay.getD 0 }
    m_chan1 := some { CsmaChannel.fresh with
      m_bps := attrs.DataRate.getD 0xffffffff, m_delay := attrs.Delay.getD 0 }
    m_bps := attrs.DataRate.getD 0xffffffff
    m_delay := attrs.Delay.getD 0 }

/-- The endpoint as `CreateObject` leaves it. -/
def EthernetNetDevice.created (ifIndex0 : Nat) : EthernetNetDevice :=
  { m_linkUp := false
    m_encapMode := EncapsulationMode.DIX
    m_node := none
    m_channel := none
    m_txDev := some CsmaNetDevice.fresh
    m_rxDev := some CsmaNetDevice.fresh
    m_ifIndex := ifIndex0 % 2 ^ 32
    m_mtu := 1500
    m_address := Mac48Address.broadcast
    m_linkChangeCallbacks := []
    m_rxCallback := none
    m_promiscRxCallback := none }

/-- A world in which every endpoint and every link has just been created, the storage of
every link's `m_nDevices` having held `garbage`. -/
def World.boot (garbage : Nat) : World :=
  { devices := fun _ => EthernetNetDevice.created 0
    channels := fun _ => EthernetChannel.created garbage ⟨none, none⟩
    trace := [] }

/-- The link with the device lists of its sub-links erased: everything about a link that the
cross-wiring leaves alone. -/
def EthernetChannel.unwired (c : EthernetChannel) : EthernetChannel :=
  { c with
    m_chan0 := c.m_chan0.map fun ch => { ch with m_deviceList := [] }
    m_chan1 := c.m_chan1.map fun ch => { ch with m_deviceList := [] } }

/-- The endpoint with the channel pointers of its interfaces erased: everything about an
endpoint that the cross-wiring leaves alone. -/
def EthernetNetDevice.unwired (d : EthernetNetDevice) : EthernetNetDevice :=
  { d with
    m_txDev := d.m_txDev.map fun i => { i with m_channel := none }
    m_rxDev := d.m_rxDev.map fun i => { i with m_channel := none } }

/-- Both sub-links hold the rate and the delay that the link itself reports. -/
def EthernetChannel.Mirrored (c : EthernetChannel) : Prop :=
  c.m_chan0.map CsmaChannel.m_bps = some c.GetDataRate ∧
  c.m_chan1.map CsmaChannel.m_bps = some c.GetDataRate ∧
  c.m_chan0.map CsmaChannel.m_delay = some c.GetDelay ∧
  c.m_chan1.map CsmaChannel.m_delay = some c.GetDelay

instance (c : EthernetChannel) : Decidable c.Mirrored := by
  unfold EthernetChannel.Mirrored
  infer_instance

/-! ## Receive callbacks and disposal of an endpoint -/

/-- What the callbacks of the surrounding framework answer: any function of the state and
history so far, the callback and its arguments. -/
structure UpperLayer where
  receive : World → CallbackId → NetDeviceRef → Packet → Nat → Address → Bool
  promiscReceive : World → CallbackId → NetDeviceRef → Packet → Nat → Address → Address →
    PacketType → Bool

/-- Invocation of a receive callback of the surrounding framework: the call is recorded
together with its answer. -/
def invokeReceive (U : UpperLayer) (w : World) (cb : CallbackId) (device : NetDeviceRef)
    (packet : Packet) (protocol : Nat) (sender : Address) : Bool × World :=
  let r := U.receive w cb device packet protocol sender
  (r, { w with trace := w.trace ++ [Event.receive cb device packet protocol sender r] })

/-- Invocation of a promiscuous receive callback of the surrounding framework: the call is
recorded together with its answer. -/
def invokePromiscReceive (U : UpperLayer) (w : World) (cb : CallbackId) (device : NetDeviceRef)
    (packet : Packet) (protocol : Nat) (sender receiver : Address) (packetType : PacketType) :
    Bool × World :=
  let r := U.promiscReceive w cb device packet protocol sender receiver packetType
  (r, { w with trace := w.trace ++
    [Event.promiscReceive cb device packet protocol sender receiver packetType r] })

/-- Method `EthernetNetDevice::SetReceiveCallback` on the endpoint `self`. -/
def EthernetNetDevice.SetReceiveCallback (w : World) (self : DevId) (cb : Option CallbackId) :
    Except Fatal World := do
  let d := { w.devices self with m_rxCallback := cb }
  if cb.isNone then
    let rx ← deref d.m_rxDev
    pure (w.setDevice self { d with
      m_rxDev := some (rx.SetReceiveCallback (ReceiveCallback.ofUser cb)) })
  else
    let rx ← deref d.m_rxDev
    pure (w.setDevice self { d with
      m_rxDev := some (rx.SetReceiveCallback (ReceiveCallback.NonPromiscReceiveFromDevice self)) })

/-- Method `EthernetNetDevice::SetPromiscReceiveCallback` on the endpoint `self`. -/
def EthernetNetDevice.SetPromiscReceiveCallback (w : World) (self : DevId)
    (cb : Option CallbackId) : Except Fatal World := do
  let d := { w.devices self with m_promiscRxCallback := cb }
  if cb.isNone then
    let rx ← deref d.m_rxDev
    pure (w.setDevice self { d with
      m_rxDev := some (rx.SetPromiscReceiveCallback (PromiscReceiveCallback.ofUser cb)) })
  else
    let rx ← deref d.m_rxDev
    pure (w.setDevice self { d with
      m_rxDev := some (rx.SetPromiscReceiveCallback
        (PromiscReceiveCallback.PromiscReceiveFromDevice self)) })

/-- Method `EthernetNetDevice::NonPromiscReceiveFromDevice` on the endpoint `self`: the
parameter `device` is not used; `m_rxCallback` is invoked with `this`, and invoking a null
callback dereferences a null pointer. -/
def EthernetNetDevice.NonPromiscReceiveFromDevice (U : UpperLayer) (w : World) (self : DevId)
    (_device : Option NetDeviceRef) (packet : Packet) (protocol : Nat) (sender : Address) :
    Except Fatal (Bool × World) := do
  let cb ← deref (w.devices self).m_rxCallback
  pure (invokeReceive U w cb (NetDeviceRef.ethernet self) packet protocol sender)

/-- Method `EthernetNetDevice::PromiscReceiveFromDevice` on the endpoint `self`: the parameter
`device` is not used; `m_promiscRxCallback` is invoked with `this`. -/
def EthernetNetDevice.PromiscReceiveFromDevice (U : UpperLayer) (w : World) (self : DevId)
    (_device : Option NetDeviceRef) (packet : Packet) (protocol : Nat) (sender receiver : Address)
    (packetType : PacketType) : Except Fatal (Bool × World) := do
  let cb ← deref (w.devices self).m_promiscRxCallback
  pure (invokePromiscReceive U w cb (NetDeviceRef.ethernet self) packet protocol sender receiver
    packetType)

/-- Boundary of the receive path of a half-duplex interface `i`: it calls the receive callback
it holds, `m_rxCallback (this, packet, protocol, source)`, with itself as the device. -/
def CsmaNetDevice.ForwardUp (U : UpperLayer) (w : World) (i : IfaceRef) (packet : Packet)
    (protocol : Nat) (sender : Address) : Except Fatal (Bool × World) := do
  let self ← deref ((w.devices i.dev).iface i.side)
  match self.m_rxCallback with
  | ReceiveCallback.null => Except.error Fatal.nullPointer
  | ReceiveCallback.user id =>
    pure (invokeReceive U w id (NetDeviceRef.csma i) packet protocol sender)
  | ReceiveCallback.NonPromiscReceiveFromDevice owner =>
    EthernetNetDevice.NonPromiscReceiveFromDevice U w owner (some (NetDeviceRef.csma i)) packet
      protocol sender

/-- Boundary of the promiscuous receive path of a half-duplex interface `i`: it calls the
promiscuous receive callback it holds, with itself as the device. -/
def CsmaNetDevice.PromiscForwardUp (U : UpperLayer) (w : World) (i : IfaceRef) (packet : Packet)
    (protocol : Nat) (sender receiver : Address) (packetType : PacketType) :
    Except Fatal (Bool × World) := do
  let self ← deref ((w.devices i.dev).iface i.side)
  match self.m_promiscRxCallback with
  | PromiscReceiveCallback.null => Except.error Fatal.nullPointer
  | PromiscReceiveCallback.user id =>
    pure (invokePromiscReceive U w id (NetDeviceRef.csma i) packet protocol sender receiver
      packetType)
  | PromiscReceiveCallback.PromiscReceiveFromDevice owner =>
    EthernetNetDevice.PromiscReceiveFromDevice U w owner (some (NetDeviceRef.csma i)) packet
      protocol sender receiver packetType

/-- Method `EthernetChannel::DoDispose`: both sub-links are released; `Channel::DoDispose`
touches no member of the link. -/
def EthernetChannel.DoDispose (c : EthernetChannel) : EthernetChannel :=
  { c with m_chan0 := none, m_chan1 := none }

/-- Method `EthernetNetDevice::DoDispose` on the endpoint `self`: `Dispose ()` is called on
the tx and then on the rx interface, then the four pointers are released. -/
def EthernetNetDevice.DoDispose (w : World) (self : DevId) : Except Fatal World := do
  let _ ← deref (w.devices self).m_txDev
  let w1 : World := { w with trace := w.trace ++ [Event.csmaDispose ⟨self, SubIface.tx⟩] }
  let _ ← deref (w1.devices self).m_rxDev
  let w2 : World := { w1 with trace := w1.trace ++ [Event.csmaDispose ⟨self, SubIface.rx⟩] }
  pure (w2.setDevice self { w2.devices self with
    m_txDev := none, m_rxDev := none, m_node := none, m_channel := none })

/-- Call `EthernetChannel::DoDispose` on link `L`. -/
def World.disposeChannel (w : World) (L : ChanId) : World :=
  w.setChannel L (w.channels L).DoDispose

/-! ## Trace fan-out, `ProxyTracedCallback` -/

/-- A non-null `Ptr<Object>`: a half-duplex interface or any other object. -/
inductive ObjectRef where
  | csmaNetDevice (i : IfaceRef)
  | object (id : Nat)
deriving DecidableEq, Repr

/-- A callback connected to a trace source of an object: the name of the source, the context
string if it was connected with one, and the callback. -/
structure Subscription where
  name : String
  context : Option String
  callback : CallbackId
deriving DecidableEq, Repr

/-- The four trace operations of `ObjectBase`. -/
inductive TraceOp where
  | TraceConnectWithoutContext
  | TraceConnect
  | TraceDisconnectWithoutContext
  | TraceDisconnect
deriving DecidableEq, Repr

/-- One call of a trace operation on an object. -/
structure TraceCall where
  op : TraceOp
  target : ObjectRef
  name : String
  context : Option String
  callback : CallbackId
deriving DecidableEq, Repr

/-- The callbacks connected to the trace sources of every object, in connection order, and
the calls of trace operations made so far. -/
structure TraceState where
  connected : ObjectRef → List Subscription
  calls : List TraceCall

/-- Boundary of `ObjectBase::TraceConnectWithoutContext (name, cb)` on `obj`. -/
def ObjectRef.TraceConnectWithoutContext (obj : ObjectRef) (T : TraceState) (name : String)
    (cb : CallbackId) : TraceState :=
  { connected := Function.update T.connected obj (T.connected obj ++ [⟨name, none, cb⟩])
    calls := T.calls ++ [⟨TraceOp.TraceConnectWithoutContext, obj, name, none, cb⟩] }

/-- Boundary of `ObjectBase::TraceConnect (name, context, cb)` on `obj`. -/
def ObjectRef.TraceConnect (obj : ObjectRef) (T : TraceState) (name : String) (context : String)
    (cb : CallbackId) : TraceState :=
  { connected := Function.update T.connected obj (T.connected obj ++ [⟨name, some context, cb⟩])
    calls := T.calls ++ [⟨TraceOp.TraceConnect, obj, name, some context, cb⟩] }

/-- Boundary of `ObjectBase::TraceDisconnectWithoutContext (name, cb)` on `obj`: every
connection of that callback to that source is removed. -/
def ObjectRef.TraceDisconnectWithoutContext (obj : ObjectRef) (T : TraceState) (name : String)
    (cb : CallbackId) : TraceState :=
  { connected := Function.update T.connected obj
      ((T.connected obj).filter fun s => decide (s ≠ ⟨name, none, cb⟩))
    calls := T.calls ++ [⟨TraceOp.TraceDisconnectWithoutContext, obj, name, none, cb⟩] }

/-- Boundary of `ObjectBase::TraceDisconnect (name, context, cb)` on `obj`: every connection
of that callback with that context to that source is removed. -/
def ObjectRef.TraceDisconnect (obj : ObjectRef) (T : TraceState) (name : String)
    (context : String) (cb : CallbackId) : TraceState :=
  { connected := Function.update T.connected obj
      ((T.connected obj).filter fun s => decide (s ≠ ⟨name, some context, cb⟩))
    calls := T.calls ++ [⟨TraceOp.TraceDisconnect, obj, name, some context, cb⟩] }

/-- How often the callback `cb` is invoked when the source `name` of `obj` fires: once for
each of its connections to that source. -/
def TraceState.deliveries (T : TraceState) (obj : ObjectRef) (name : String) (cb : CallbackId) :
    Nat :=
  (T.connected obj).countP fun s => decide (s.name = name ∧ s.callback = cb)

/-- Members of `ProxyTracedCallback`. -/
structure ProxyTracedCallback where
  m_name : String
  m_obj1 : Option ObjectRef
  m_obj2 : Option ObjectRef
deriving DecidableEq, Repr

/-- Constructor `ProxyTracedCallback::ProxyTracedCallback (name, obj1, obj2)`. -/
def ProxyTracedCallback.ctor (name : String) (obj1 : Option ObjectRef)
    (obj2 : Option ObjectRef) : Except Fatal ProxyTracedCallback := do
  let p : ProxyTracedCallback := { m_name := name, m_obj1 := obj1, m_obj2 := obj2 }
  NS_ASSERT obj1.isSome
  pure p

/-- Method `ProxyTracedCallback::ConnectWithoutContext`. -/
def ProxyTracedCallback.ConnectWithoutContext (p : ProxyTracedCallback) (T : TraceState)
    (callback : CallbackId) : Except Fatal TraceState := do
  let obj1 ← deref p.m_obj1
  let T1 := obj1.TraceConnectWithoutContext T p.m_name callback
  match p.m_obj2 with
  | some obj2 => pure (obj2.TraceConnectWithoutContext T1 p.m_name callback)
  | none => pure T1

/-- Method `ProxyTracedCallback::Connect`. -/
def ProxyTracedCallback.Connect (p : ProxyTracedCallback) (T : TraceState)
    (callback : CallbackId) (context : String) : Except Fatal TraceState := do
  let obj1 ← deref p.m_obj1
  let T1 := obj1.TraceConnect T p.m_name context callback
  match p.m_obj2 with
  | some obj2 => pure (obj2.TraceConnect T1 p.m_name context callback)
  | none => pure T1

/-- Method `ProxyTracedCallback::DisconnectWithoutContext`. -/
def ProxyTracedCallback.DisconnectWithoutContext (p : ProxyTracedCallback) (T : TraceState)
    (callback : CallbackId) : Except Fatal TraceState := do
  let obj1 ← deref p.m_obj1
  let T1 := obj1.TraceDisconnectWithoutContext T p.m_name callback
  match p.m_obj2 with
  | some obj2 => pure (obj2.TraceDisconnectWithoutContext T1 p.m_name callback)
  | none => pure T1

/-- Method `ProxyTracedCallback::Disconnect`. -/
def ProxyTracedCallback.Disconnect (p : ProxyTracedCallback) (T : TraceState)
    (callback : CallbackId) (context : String) : Except Fatal TraceState := do
  let obj1 ← deref p.m_obj1
  let T1 := obj1.TraceDisconnect T p.m_name context callback
  match p.m_obj2 with
  | some obj2 => pure (obj2.TraceDisconnect T1 p.m_name context callback)
  | none => pure T1

/-- The calls a fan-out is expected to make for one operation: one on the primary target and
one on the secondary target when there is one, under the same name, context and callback. -/
def fanOutCalls (op : TraceOp) (name : String) (context : Option String) (cb : CallbackId)
    (obj1 : ObjectRef) (obj2 : Option ObjectRef) : List TraceCall :=
  ⟨op, obj1, name, context, cb⟩ ::
    match obj2 with
    | some o2 => [⟨op, o2, name, context, cb⟩]
    | none => []

/-- The ten `ProxyTracedCallback` members of `EthernetNetDevice`. -/
structure EthernetTraces where
  m_macTxTrace : ProxyTracedCallback
  m_macTxDropTrace : ProxyTracedCallback
  m_macPromiscRxTrace : ProxyTracedCallback
  m_macRxTrace : ProxyTracedCallback
  m_phyTxBeginTrace : ProxyTracedCallback
  m_phyTxEndTrace : ProxyTracedCallback
  m_phyTxDropTrace : ProxyTracedCallback
  m_phyRxEndTrace : ProxyTracedCallback
  m_phyRxDropTrace : ProxyTracedCallback
  m_promiscSnifferTrace : ProxyTracedCallback
deriving DecidableEq, Repr

/-- The part of the constructor `EthernetNetDevice::EthernetNetDevice ()` of endpoint `self`
that builds the ten fan-outs over the two interfaces it has just created. -/
def EthernetNetDevice.ctorTraces (self : DevId) : Except Fatal EthernetTraces := do
  let m_txDev := some (ObjectRef.csmaNetDevice ⟨self, SubIface.tx⟩)
  let m_rxDev := some (ObjectRef.csmaNetDevice ⟨self, SubIface.rx⟩)
  let m_macTxTrace ← ProxyTracedCallback.ctor "MacTx" m_txDev none
  let m_macTxDropTrace ← ProxyTracedCallback.ctor "MacTxDrop" m_txDev none
  let m_macPromiscRxTrace ← ProxyTracedCallback.ctor "MacPromiscRx" m_rxDev none
  let m_macRxTrace ← ProxyTracedCallback.ctor "MacRx" m_rxDev none
  let m_phyTxBeginTrace ← ProxyTracedCallback.ctor "PhyTxBegin" m_txDev none
  let m_phyTxEndTrace ← ProxyTracedCallback.ctor "PhyTxEnd" m_txDev none
  let m_phyTxDropTrace ← ProxyTracedCallback.ctor "PhyTxDrop" m_txDev none
  let m_phyRxEndTrace ← ProxyTracedCallback.ctor "PhyRxEnd" m_rxDev none
  let m_phyRxDropTrace ← ProxyTracedCallback.ctor "PhyRxDrop" m_rxDev none
  let m_promiscSnifferTrace ← ProxyTracedCallback.ctor "PromiscSniffer" m_txDev m_rxDev
  pure { m_macTxTrace, m_macTxDropTrace, m_macPromiscRxTrace, m_macRxTrace, m_phyTxBeginTrace,
         m_phyTxEndTrace, m_phyTxDropTrace, m_phyRxEndTrace, m_phyRxDropTrace,
         m_promiscSnifferTrace }

/-- The trace sources `EthernetNetDevice::GetTypeId` registers: the fan-out behind each name. -/
def EthernetTraces.traceSource (t : EthernetTraces) (name : String) : Option ProxyTracedCallback :=
  if name = "MacTx" then some t.m_macTxTrace
  else if name = "MacTxDrop" then some t.m_macTxDropTrace
  else if name = "MacPromiscRx" then some t.m_macPromiscRxTrace
  else if name = "MacRx" then some t.m_macRxTrace
  else if name = "PhyTxBegin" then some t.m_phyTxBeginTrace
  else if name = "PhyTxEnd" then some t.m_phyTxEndTrace
  else if name = "PhyTxDrop" then some t.m_phyTxDropTrace
  else if name = "PhyRxEnd" then some t.m_phyRxEndTrace
  else if name = "PhyRxDrop" then some t.m_phyRxDropTrace
  else if name = "PromiscSniffer" then some t.m_promiscSnifferTrace
  else none

/-- Boundary of `ObjectBase::TraceConnectWithoutContext (name, cb)` on an endpoint: the
registered accessor connects the callback to the fan-out behind the name; an unknown name is
answered with false. -/
def EthernetTraces.TraceConnectWithoutContext (t : EthernetTraces) (T : TraceState)
    (name : String) (cb : CallbackId) : Except Fatal (Bool × TraceState) :=
  match t.traceSource name with
  | none => pure (false, T)
  | some p => do
    let T1 ← p.ConnectWithoutContext T cb
    pure (true, T1)

/-- The ten fan-outs as the constructor of endpoint `self` leaves them. -/
def EthernetTraces.created (self : DevId) : EthernetTraces :=
  { m_macTxTrace := ⟨"MacTx", some (ObjectRef.csmaNetDevice ⟨self, SubIface.tx⟩), none⟩
    m_macTxDropTrace := ⟨"MacTxDrop", some (ObjectRef.csmaNetDevice ⟨self, SubIface.tx⟩), none⟩
    m_macPromiscRxTrace :=
      ⟨"MacPromiscRx", some (ObjectRef.csmaNetDevice ⟨self, SubIface.rx⟩), none⟩
    m_macRxTrace := ⟨"MacRx", some (ObjectRef.csmaNetDevice ⟨self, SubIface.rx⟩), none⟩
    m_phyTxBeginTrace := ⟨"PhyTxBegin", some (ObjectRef.csmaNetDevice ⟨self, SubIface.tx⟩), none⟩
    m_phyTxEndTrace := ⟨"PhyTxEnd", some (ObjectRef.csmaNetDevice ⟨self, SubIface.tx⟩), none⟩
    m_phyTxDropTrace := ⟨"PhyTxDrop", some (ObjectRef.csmaNetDevice ⟨self, SubIface.tx⟩), none⟩
    m_phyRxEndTrace := ⟨"PhyRxEnd", some (ObjectRef.csmaNetDevice ⟨self, SubIface.rx⟩), none⟩
    m_phyRxDropTrace := ⟨"PhyRxDrop", some (ObjectRef.csmaNetDevice ⟨self, SubIface.rx⟩), none⟩
    m_promiscSnifferTrace :=
      ⟨"PromiscSniffer", some (ObjectRef.csmaNetDevice ⟨self, SubIface.tx⟩),
        some (ObjectRef.csmaNetDevice ⟨self, SubIface.rx⟩)⟩ }

/-- A state in which nothing is connected and no trace operation was called. -/
def TraceState.empty : TraceState :=
  { connected := fun _ => [], calls := [] }

/-- Link `L` holds endpoint `E` in both slots and the cross-wiring has put both interfaces of
`E` on both sub-links: tx on A then B, rx on B then A, so that the tx interface transmits on
sub-link B, to which the rx interface of the same endpoint is attached as well. -/
def SelfWired (w : World) (L : ChanId) (E : DevId) : Prop :=
  (w.channels L).GetNDevices = 2 ∧
  (w.channels L).GetDevice 0 = Except.ok (some E) ∧
  (w.channels L).GetDevice 1 = Except.ok (some E) ∧
  (w.channels L).m_chan0.map CsmaChannel.m_deviceList =
    some [⟨E, SubIface.tx⟩, ⟨E, SubIface.rx⟩] ∧
  (w.channels L).m_chan1.map CsmaChannel.m_deviceList =
    some [⟨E, SubIface.rx⟩, ⟨E, SubIface.tx⟩] ∧
  (w.devices E).m_txDev.bind CsmaNetDevice.m_channel = some ⟨L, SubLink.chan1⟩ ∧
  (w.devices E).m_rxDev.bind CsmaNetDevice.m_channel = some ⟨L, SubLink.chan0⟩

instance (w : World) (L : ChanId) (E : DevId) : Decidable (SelfWired w L E) := by
  unfold SelfWired
  infer_instance

/-- The world that results when, among freshly created objects with zero counters, endpoints
0 and 1 are attached to link 0. -/
def World.bothAttached : World :=
  match attachAll (World.boot 0) 0 [some 0, some 1] with
  | Except.ok w => w
  | Except.error _ => World.boot 0

/-! ## Basic facts -/

@[simp] theorem ok_bind {α β : Type} (a : α) (f : α → Except Fatal β) :
    (Except.ok a >>= f) = f a := rfl

@[simp] theorem error_bind {α β : Type} (e : Fatal) (f : α → Except Fatal β) :
    ((Except.error e : Except Fatal α) >>= f) = Except.error e := rfl

@[simp] theorem pure_eq_ok {α : Type} (a : α) : (pure a : Except Fatal α) = Except.ok a := rfl

theorem bind_ok_inv {α β : Type} (x : Except Fatal α) (f : α → Except Fatal β) (y : β)
    (h : (x >>= f) = Except.ok y) : ∃ v, x = Except.ok v ∧ f v = Except.ok y := by
  cases x with
  | error e => simp at h
  | ok v => exact ⟨v, rfl, h⟩

theorem ok_of_toBool {α : Type} (x : Except Fatal α) (h : x.toBool = true) :
    ∃ a, x = Except.ok a := by
  cases x with
  | error e => simp [Except.toBool] at h
  | ok a => exact ⟨a, rfl⟩

@[simp] theorem deref_some {α : Type} (a : α) : deref (some a) = Except.ok a := rfl

@[simp] theorem deref_none {α : Type} : deref (none : Option α) = Except.error Fatal.nullPointer := rfl

theorem deref_ok_inv {α : Type} (o : Option α) (a : α) (h : deref o = Except.ok a) : o = some a := by
  cases o with
  | none => simp at h
  | some b => simp at h; rw [h]

@[simp] theorem NS_ASSERT_true : NS_ASSERT true = Except.ok () := rfl

@[simp] theorem NS_ASSERT_false : NS_ASSERT false = Except.error Fatal.assertion := rfl

theorem CsmaChannel.setAttribute_dataRate (ch : CsmaChannel) (bps : DataRate) :
    ch.SetAttribute "DataRate" (AttributeValue.dataRate bps) = Except.ok { ch with m_bps := bps } := by
  simp [CsmaChannel.SetAttribute]

theorem CsmaChannel.setAttribute_delay (ch : CsmaChannel) (t : Time) :
    ch.SetAttribute "Delay" (AttributeValue.time t) = Except.ok { ch with m_delay := t } := by
  simp [CsmaChannel.SetAttribute]

theorem EthernetChannel.createObject_channel_eq (garbage : Nat) (attrs : ChannelAttributes) :
    EthernetChannel.CreateObject garbage attrs = Except.ok (EthernetChannel.created garbage attrs) := by
  simp [EthernetChannel.CreateObject, EthernetChannel.ctor, EthernetChannel.SetDataRate,
    EthernetChannel.SetDelay, CsmaChannel.setAttribute_dataRate, CsmaChannel.setAttribute_delay,
    EthernetChannel.created, CsmaChannel.fresh]

theorem EthernetNetDevice.createObject_device_eq (ifIndex0 mtu0 : Nat) :
    EthernetNetDevice.CreateObject ifIndex0 mtu0 = Except.ok (EthernetNetDevice.created ifIndex0) := by
  simp [EthernetNetDevice.CreateObject, EthernetNetDevice.ctor, EthernetNetDevice.SetMac48Address,
    EthernetNetDevice.SetMtu, EthernetNetDevice.SetEncapsulationMode, CsmaNetDevice.SetAddress,
    Mac48Address.ConvertFrom, Mac48Address.ConvertTo, CsmaNetDevice.SetMtu,
    CsmaNetDevice.SetEncapsulationMode, EthernetNetDevice.created, CsmaNetDevice.fresh, DEFAULT_MTU]

/-! ## Attaching endpoints to a link -/

theorem EthernetChannel.attach_full (w : World) (L : ChanId) (dev : Option DevId)
    (h : 2 ≤ (w.channels L).m_nDevices) :
    EthernetChannel.Attach w L dev = Except.error Fatal.assertion := by
  have h2 : ¬ (w.channels L).m_nDevices < N_DEVICES := by simp only [N_DEVICES]; omega
  simp [EthernetChannel.Attach, h2]

theorem EthernetChannel.attach_null (w : World) (L : ChanId) :
    EthernetChannel.Attach w L none = Except.error Fatal.assertion := by
  unfold EthernetChannel.Attach
  by_cases h : (w.channels L).m_nDevices < N_DEVICES <;> simp [h]

theorem EthernetChannel.attach_first (w : World) (L : ChanId) (d : DevId)
    (h : (w.channels L).m_nDevices = 0) :
    EthernetChannel.Attach w L (some d) = Except.ok
      { devices := w.devices
        channels := Function.update w.channels L { w.channels L with
          m_devices := Function.update (w.channels L).m_devices 0 (some d)
          m_nDevices := 1 }
        trace := w.trace } := by
  have h2 : (w.channels L).m_nDevices < N_DEVICES := by simp [h]
  simp only [EthernetChannel.Attach, h2, dite_true]
  simp [h, World.setChannel]

theorem csmaAttach_ok (w : World) (d : DevId) (side : SubIface) (chan : ChanId) (sub : SubLink)
    (i : CsmaNetDevice) (ch : CsmaChannel) (hi : (w.devices d).iface side = some i)
    (hch : (w.channels chan).subLink sub = some ch) :
    csmaAttach w (some d) side chan sub = Except.ok
      { devices := Function.update w.devices d
          ((w.devices d).setIface side { i with m_channel := some ⟨chan, sub⟩ })
        channels := Function.update w.channels chan
          ((w.channels chan).setSubLink sub { ch with m_deviceList := ch.m_deviceList ++ [⟨d, side⟩] })
        trace := w.trace } := by
  simp [csmaAttach, hi, hch, World.setDevice, World.setChannel]

theorem csmaAttach_ok_inv (w w1 : World) (dev : Option DevId) (side : SubIface) (chan : ChanId)
    (sub : SubLink) (h : csmaAttach w dev side chan sub = Except.ok w1) :
    ∃ d i ch, dev = some d ∧ (w.devices d).iface side = some i ∧
      (w.channels chan).subLink sub = some ch ∧
      w1 = { devices := Function.update w.devices d
               ((w.devices d).setIface side { i with m_channel := some ⟨chan, sub⟩ })
             channels := Function.update w.channels chan
               ((w.channels chan).setSubLink sub
                 { ch with m_deviceList := ch.m_deviceList ++ [⟨d, side⟩] })
             trace := w.trace } := by
  cases dev with
  | none => simp [csmaAttach] at h
  | some d =>
    cases hi : (w.devices d).iface side with
    | none => simp [csmaAttach, hi] at h
    | some i =>
      cases hch : (w.channels chan).subLink sub with
      | none => simp [csmaAttach, hi, hch] at h
      | some ch =>
        rw [csmaAttach_ok w d side chan sub i ch hi hch] at h
        exact ⟨d, i, ch, rfl, hi, rfl, (Except.ok.inj h).symm⟩

theorem EthernetChannel.attach_second (w : World) (L : ChanId) (d : DevId)
    (h : (w.channels L).m_nDevices = 1) :
    EthernetChannel.Attach w L (some d) =
      (csmaAttach { devices := w.devices
                    channels := Function.update w.channels L { w.channels L with
                      m_devices := Function.update (w.channels L).m_devices 1 (some d)
                      m_nDevices := 2 }
                    trace := w.trace }
        ((w.channels L).m_devices 0) SubIface.tx L SubLink.chan0 >>= fun w2 =>
      csmaAttach w2 ((w2.channels L).m_devices 0) SubIface.rx L SubLink.chan1 >>= fun w3 =>
      csmaAttach w3 ((w3.channels L).m_devices 1) SubIface.tx L SubLink.chan1 >>= fun w4 =>
      csmaAttach w4 ((w4.channels L).m_devices 1) SubIface.rx L SubLink.chan0) := by
  have h2 : (w.channels L).m_nDevices < N_DEVICES := by simp [h]
  simp only [EthernetChannel.Attach, h2, dite_true]
  simp [h, World.setChannel]

theorem EthernetChannel.created_of_createObject (c : EthernetChannel) (garbage : Nat)
    (attrs : ChannelAttributes) (h : EthernetChannel.CreateObject garbage attrs = Except.ok c) :
    c = EthernetChannel.created garbage attrs := by
  rw [EthernetChannel.createObject_channel_eq] at h
  exact (Except.ok.inj h).symm

/-- On a link whose counter reads zero, two successful attaches of distinct endpoints leave
the cross-wired state: the first attach wires nothing, the second wires all four interfaces. -/
theorem EthernetChannel.attach_two_inv (w w1 w2 : World) (L : ChanId) (E0 E1 : DevId)
    (hne : E0 ≠ E1)
    (hn : (w.channels L).m_nDevices = 0)
    (h1 : EthernetChannel.Attach w L (some E0) = Except.ok w1)
    (h2 : EthernetChannel.Attach w1 L (some E1) = Except.ok w2) :
    ∃ a b, (w.channels L).m_chan0 = some a ∧ (w.channels L).m_chan1 = some b ∧
      w1.devices = w.devices ∧ (w1.channels L).m_chan0 = some a ∧ (w1.channels L).m_chan1 = some b ∧
      (w2.devices E0).m_txDev.bind CsmaNetDevice.m_channel = some ⟨L, SubLink.chan0⟩ ∧
      (w2.devices E0).m_rxDev.bind CsmaNetDevice.m_channel = some ⟨L, SubLink.chan1⟩ ∧
      (w2.devices E1).m_txDev.bind CsmaNetDevice.m_channel = some ⟨L, SubLink.chan1⟩ ∧
      (w2.devices E1).m_rxDev.bind CsmaNetDevice.m_channel = some ⟨L, SubLink.chan0⟩ ∧
      (w2.channels L).m_chan0 = some { a with
        m_deviceList := a.m_deviceList ++ [⟨E0, SubIface.tx⟩, ⟨E1, SubIface.rx⟩] } ∧
      (w2.channels L).m_chan1 = some { b with
        m_deviceList := b.m_deviceList ++ [⟨E0, SubIface.rx⟩, ⟨E1, SubIface.tx⟩] } := by
  rw [EthernetChannel.attach_first w L E0 hn] at h1
  have e1 := (Except.ok.inj h1).symm
  subst e1
  rw [EthernetChannel.attach_second _ L E1 (by simp)] at h2
  simp only [Function.update_same] at h2
  clear h1
  obtain ⟨wa, ha, h3⟩ := bind_ok_inv _ _ _ h2
  obtain ⟨d, t0, a, hd, ht0, ha0, rfl⟩ := csmaAttach_ok_inv _ _ _ _ _ _ ha
  clear ha h2
  simp at hd
  subst hd
  simp [EthernetNetDevice.iface, EthernetNetDevice.GetTxDevice, EthernetChannel.subLink] at ht0 ha0
  simp [EthernetNetDevice.setIface, EthernetChannel.setSubLink] at h3
  obtain ⟨wb, hb, h4⟩ := bind_ok_inv _ _ _ h3
  obtain ⟨d, r0, b, hd, hr0, hb0, rfl⟩ := csmaAttach_ok_inv _ _ _ _ _ _ hb
  clear hb h3
  simp at hd
  subst hd
  simp [EthernetNetDevice.iface, EthernetNetDevice.GetRxDevice, EthernetChannel.subLink] at hr0 hb0
  simp [EthernetNetDevice.setIface, EthernetChannel.setSubLink] at h4
  obtain ⟨wc, hc, h5⟩ := bind_ok_inv _ _ _ h4
  obtain ⟨d, t1, b1, hd, ht1, hb1, rfl⟩ := csmaAttach_ok_inv _ _ _ _ _ _ hc
  clear hc h4
  simp at hd
  subst hd
  simp [EthernetNetDevice.iface, EthernetNetDevice.GetTxDevice, EthernetChannel.subLink,
    Function.update_noteq hne.symm] at ht1 hb1
  subst hb1
  simp [EthernetNetDevice.setIface, EthernetChannel.setSubLink, Function.update_noteq hne.symm] at h5
  obtain ⟨d, r1, a1, hd, hr1, ha1, rfl⟩ := csmaAttach_ok_inv _ _ _ _ _ _ h5
  clear h5
  simp at hd
  subst hd
  simp [EthernetNetDevice.iface, EthernetNetDevice.GetRxDevice, EthernetChannel.subLink,
    Function.update_noteq hne.symm] at hr1 ha1
  subst ha1
  refine ⟨a, b, ha0, hb0, rfl, ?_, ?_, ?_⟩
  · simp [ha0]
  · simp [hb0]
  · simp [EthernetNetDevice.setIface, EthernetChannel.setSubLink, Function.update_noteq hne,
      Function.update_noteq hne.symm, ht1, hr1]

theorem EthernetNetDevice.device_isLive_iff (d : EthernetNetDevice) :
    d.isLive = true ↔ ∃ t r, d.m_txDev = some t ∧ d.m_rxDev = some r := by
  unfold EthernetNetDevice.isLive
  cases d.m_txDev <;> cases d.m_rxDev <;> simp

theorem EthernetChannel.channel_isLive_iff (c : EthernetChannel) :
    c.isLive = true ↔ ∃ a b, c.m_chan0 = some a ∧ c.m_chan1 = some b := by
  unfold EthernetChannel.isLive
  cases c.m_chan0 <;> cases c.m_chan1 <;> simp

/-- On a live link whose counter reads one and whose first slot holds a live endpoint, the
attach of a live endpoint succeeds. -/
theorem EthernetChannel.attach_second_ok (w : World) (L : ChanId) (E0 E1 : DevId)
    (hn : (w.channels L).m_nDevices = 1) (h0 : (w.channels L).m_devices 0 = some E0)
    (hL : (w.channels L).isLive = true)
    (hE0 : (w.devices E0).isLive = true) (hE1 : (w.devices E1).isLive = true) :
    ∃ w2, EthernetChannel.Attach w L (some E1) = Except.ok w2 := by
  obtain ⟨t0, r0, ht0, hr0⟩ := (EthernetNetDevice.device_isLive_iff _).1 hE0
  obtain ⟨t1, r1, ht1, hr1⟩ := (EthernetNetDevice.device_isLive_iff _).1 hE1
  obtain ⟨a, b, ha, hb⟩ := (EthernetChannel.channel_isLive_iff _).1 hL
  rw [EthernetChannel.attach_second w L E1 hn]
  by_cases hne : E0 = E1
  · subst hne
    simp [csmaAttach, h0, ht0, hr0, ha, hb, EthernetNetDevice.iface,
      EthernetNetDevice.GetTxDevice, EthernetNetDevice.GetRxDevice, EthernetChannel.subLink,
      EthernetNetDevice.setIface, EthernetChannel.setSubLink, World.setDevice, World.setChannel]
  · simp [csmaAttach, h0, ht0, hr0, ht1, hr1, ha, hb, EthernetNetDevice.iface,
      EthernetNetDevice.GetTxDevice, EthernetNetDevice.GetRxDevice, EthernetChannel.subLink,
      EthernetNetDevice.setIface, EthernetChannel.setSubLink, World.setDevice, World.setChannel,
      Function.update_noteq hne, Function.update_noteq (Ne.symm hne)]

/-- The cross-wiring of one interface changes nothing but that interface's channel pointer
and that sub-link's device list. -/
theorem csmaAttach_frame (w w1 : World) (dev : Option DevId) (side : SubIface) (chan : ChanId)
    (sub : SubLink) (h : csmaAttach w dev side chan sub = Except.ok w1) :
    (∀ c, (w1.channels c).unwired = (w.channels c).unwired) ∧
    (∀ d, (w1.devices d).unwired = (w.devices d).unwired) ∧ w1.trace = w.trace := by
  obtain ⟨d, i, ch, _, hi, hch, rfl⟩ := csmaAttach_ok_inv _ _ _ _ _ _ h
  refine ⟨fun c => ?_, fun d1 => ?_, rfl⟩
  · by_cases hc : c = chan
    · subst hc
      cases sub <;>
        simp [EthernetChannel.unwired, EthernetChannel.setSubLink, EthernetChannel.subLink] at hch ⊢ <;>
        simp [hch]
    · simp [Function.update_noteq hc]
  · by_cases hd : d1 = d
    · subst hd
      cases side <;>
        simp [EthernetNetDevice.unwired, EthernetNetDevice.setIface, EthernetNetDevice.iface,
          EthernetNetDevice.GetTxDevice, EthernetNetDevice.GetRxDevice] at hi ⊢ <;>
        simp [hi]
    · simp [Function.update_noteq hd]

/-- A successful attach passed both assertions, stored the endpoint in the next slot and
incremented the counter; apart from the cross-wiring it changed nothing else. -/
theorem EthernetChannel.attach_frame (w w1 : World) (L : ChanId) (dev : Option DevId)
    (h : EthernetChannel.Attach w L dev = Except.ok w1) :
    ∃ (hlt : (w.channels L).m_nDevices < N_DEVICES) (d : DevId), dev = some d ∧
      (w1.channels L).unwired = { (w.channels L).unwired with
        m_devices := Function.update (w.channels L).m_devices ⟨(w.channels L).m_nDevices, hlt⟩ (some d)
        m_nDevices := (w.channels L).m_nDevices + 1 } ∧
      (∀ c, c ≠ L → (w1.channels c).unwired = (w.channels c).unwired) ∧
      (∀ e, (w1.devices e).unwired = (w.devices e).unwired) ∧ w1.trace = w.trace := by
  unfold EthernetChannel.Attach at h
  by_cases hlt : (w.channels L).m_nDevices < N_DEVICES
  · cases dev with
    | none => simp [hlt] at h
    | some d =>
      refine ⟨hlt, d, rfl, ?_⟩
      simp only [hlt, dite_true, Option.isSome_some, NS_ASSERT_true, ok_bind] at h
      by_cases h2 : (w.channels L).m_nDevices + 1 = N_DEVICES
      · simp only [h2, if_true] at h
        obtain ⟨wa, ha, h⟩ := bind_ok_inv _ _ _ h
        obtain ⟨wb, hb, h⟩ := bind_ok_inv _ _ _ h
        obtain ⟨wc, hc, h⟩ := bind_ok_inv _ _ _ h
        obtain ⟨fa1, fa2, fa3⟩ := csmaAttach_frame _ _ _ _ _ _ ha
        obtain ⟨fb1, fb2, fb3⟩ := csmaAttach_frame _ _ _ _ _ _ hb
        obtain ⟨fc1, fc2, fc3⟩ := csmaAttach_frame _ _ _ _ _ _ hc
        obtain ⟨fd1, fd2, fd3⟩ := csmaAttach_frame _ _ _ _ _ _ h
        refine ⟨?_, fun c hc => ?_, fun e => ?_, ?_⟩
        · rw [fd1, fc1, fb1, fa1]
          simp [World.setChannel, EthernetChannel.unwired, h2]
        · rw [fd1, fc1, fb1, fa1]
          simp [World.setChannel, Function.update_noteq hc]
        · rw [fd2, fc2, fb2, fa2]
          simp [World.setChannel]
        · rw [fd3, fc3, fb3, fa3]
          simp [World.setChannel]
      · simp only [h2, if_false, pure_eq_ok] at h
        have e := (Except.ok.inj h).symm
        subst e
        refine ⟨?_, fun c hc => ?_, fun e => ?_, ?_⟩
        · simp [World.setChannel, EthernetChannel.unwired]
        · simp [World.setChannel, Function.update_noteq hc]
        · simp [World.setChannel]
        · simp [World.setChannel]
  · simp [hlt] at h

theorem EthernetChannel.channel_unwired_isLive (c c1 : EthernetChannel) (h : c1.unwired = c.unwired) :
    c1.isLive = c.isLive := by
  have h0 := congrArg (fun x => x.m_chan0.isSome) h
  have h1 := congrArg (fun x => x.m_chan1.isSome) h
  simp only [EthernetChannel.unwired, Option.isSome_map'] at h0 h1
  simp [EthernetChannel.isLive, h0, h1]

theorem EthernetNetDevice.device_unwired_isLive (d d1 : EthernetNetDevice) (h : d1.unwired = d.unwired) :
    d1.isLive = d.isLive := by
  have h0 := congrArg (fun x => x.m_txDev.isSome) h
  have h1 := congrArg (fun x => x.m_rxDev.isSome) h
  simp only [EthernetNetDevice.unwired, Option.isSome_map'] at h0 h1
  simp [EthernetNetDevice.isLive, h0, h1]

/-- From a counter that reads zero the attach sequence behaves as intended: two attaches of
live endpoints succeed and count one and two, and a further attach is rejected. -/
theorem EthernetChannel.attach_sequence_from_zero (w : World) (L : ChanId) (E0 E1 : DevId)
    (dev : Option DevId) (hn : (w.channels L).m_nDevices = 0)
    (hL : (w.channels L).isLive = true)
    (hE0 : (w.devices E0).isLive = true) (hE1 : (w.devices E1).isLive = true) :
    ∃ w1 w2, EthernetChannel.Attach w L (some E0) = Except.ok w1 ∧
      (w1.channels L).GetNDevices = 1 ∧
      EthernetChannel.Attach w1 L (some E1) = Except.ok w2 ∧
      (w2.channels L).GetNDevices = 2 ∧
      EthernetChannel.Attach w2 L dev = Except.error Fatal.assertion := by
  have h1 := EthernetChannel.attach_first w L E0 hn
  generalize hw1 : ({ devices := w.devices
                      channels := Function.update w.channels L { w.channels L with
                        m_devices := Function.update (w.channels L).m_devices 0 (some E0)
                        m_nDevices := 1 }
                      trace := w.trace } : World) = w1 at h1
  have hn1 : (w1.channels L).m_nDevices = 1 := by subst hw1; simp
  have hd1 : (w1.channels L).m_devices 0 = some E0 := by subst hw1; simp
  have hL1 : (w1.channels L).isLive = true := by
    subst hw1; simpa [EthernetChannel.isLive] using hL
  have hE01 : (w1.devices E0).isLive = true := by subst hw1; exact hE0
  have hE11 : (w1.devices E1).isLive = true := by subst hw1; exact hE1
  obtain ⟨w2, h2⟩ := EthernetChannel.attach_second_ok w1 L E0 E1 hn1 hd1 hL1 hE01 hE11
  obtain ⟨hlt, d, _, hu, _, _, _⟩ := EthernetChannel.attach_frame w1 w2 L _ h2
  have hcount : (w2.channels L).m_nDevices = 2 := by
    have := congrArg EthernetChannel.m_nDevices hu
    simpa [EthernetChannel.unwired, hn1] using this
  exact ⟨w1, w2, h1, hn1, h2, hcount, EthernetChannel.attach_full w2 L dev (by omega)⟩

/-! ## Mirroring of rate and delay -/

theorem EthernetChannel.mirrored_iff_unwired (c : EthernetChannel) :
    c.unwired.Mirrored ↔ c.Mirrored := by
  simp only [EthernetChannel.unwired, EthernetChannel.Mirrored, EthernetChannel.GetDataRate,
    EthernetChannel.GetDelay, Option.map_map]
  rfl

theorem EthernetChannel.mirrored_of_unwired_eq (c c1 : EthernetChannel) (ds : Fin N_DEVICES → Option DevId)
    (n : Nat) (h : c1.unwired = { c.unwired with m_devices := ds, m_nDevices := n })
    (hm : c.Mirrored) : c1.Mirrored := by
  rw [← EthernetChannel.mirrored_iff_unwired] at hm ⊢
  rw [h]
  exact hm

theorem EthernetChannel.setDataRate_mirrored (c c1 : EthernetChannel) (r : DataRate) (b : Bool)
    (hm : c.Mirrored) (h : c.SetDataRate r = Except.ok (b, c1)) : c1.Mirrored := by
  cases ha : c.m_chan0 with
  | none => simp [EthernetChannel.Mirrored, ha] at hm
  | some a0 =>
    cases hb : c.m_chan1 with
    | none => simp [EthernetChannel.Mirrored, hb] at hm
    | some b0 =>
      simp [EthernetChannel.SetDataRate, CsmaChannel.setAttribute_dataRate, ha, hb] at h
      obtain ⟨_, rfl⟩ := h
      simp only [EthernetChannel.Mirrored, EthernetChannel.GetDataRate, EthernetChannel.GetDelay,
        ha, hb, Option.map_some', Option.some.injEq] at hm ⊢
      exact ⟨trivial, trivial, hm.2.2.1, hm.2.2.2⟩

theorem EthernetChannel.setDelay_mirrored (c c1 : EthernetChannel) (t : Time) (b : Bool)
    (hm : c.Mirrored) (h : c.SetDelay t = Except.ok (b, c1)) : c1.Mirrored := by
  cases ha : c.m_chan0 with
  | none => simp [EthernetChannel.Mirrored, ha] at hm
  | some a0 =>
    cases hb : c.m_chan1 with
    | none => simp [EthernetChannel.Mirrored, hb] at hm
    | some b0 =>
      simp [EthernetChannel.SetDelay, CsmaChannel.setAttribute_delay, ha, hb] at h
      obtain ⟨_, rfl⟩ := h
      simp only [EthernetChannel.Mirrored, EthernetChannel.GetDataRate, EthernetChannel.GetDelay,
        ha, hb, Option.map_some', Option.some.injEq] at hm ⊢
      exact ⟨hm.1, hm.2.1, trivial, trivial⟩

theorem LinkOp.run_mirrored (w w1 : World) (L : ChanId) (op : LinkOp)
    (hm : (w.channels L).Mirrored) (h : op.run w L = Except.ok w1) :
    (w1.channels L).Mirrored := by
  cases op with
  | attach dev =>
    obtain ⟨_, _, _, hu, _, _, _⟩ := EthernetChannel.attach_frame w w1 L dev h
    exact EthernetChannel.mirrored_of_unwired_eq _ _ _ _ hu hm
  | setDataRate bps =>
    simp only [LinkOp.run] at h
    obtain ⟨⟨b, c⟩, hc, h⟩ := bind_ok_inv _ _ _ h
    have e := (Except.ok.inj h).symm
    subst e
    simpa [World.setChannel] using EthernetChannel.setDataRate_mirrored _ _ _ _ hm hc
  | setDelay delay =>
    simp only [LinkOp.run] at h
    obtain ⟨⟨b, c⟩, hc, h⟩ := bind_ok_inv _ _ _ h
    have e := (Except.ok.inj h).symm
    subst e
    simpa [World.setChannel] using EthernetChannel.setDelay_mirrored _ _ _ _ hm hc

theorem runLinkOps_mirrored (L : ChanId) (ops : List LinkOp) :
    ∀ (w w1 : World), (w.channels L).Mirrored → runLinkOps w L ops = Except.ok w1 →
      (w1.channels L).Mirrored := by
  induction ops with
  | nil =>
    intro w w1 hm h
    have e := (Except.ok.inj h).symm
    subst e
    exact hm
  | cons op ops ih =>
    intro w w1 hm h
    simp only [runLinkOps] at h
    obtain ⟨wa, ha, h⟩ := bind_ok_inv _ _ _ h
    exact ih wa w1 (LinkOp.run_mirrored w wa L op hm ha) h

theorem EthernetChannel.created_mirrored (garbage : Nat) (attrs : ChannelAttributes) :
    (EthernetChannel.created garbage attrs).Mirrored := by
  simp [EthernetChannel.Mirrored, EthernetChannel.created, EthernetChannel.GetDataRate,
    EthernetChannel.GetDelay]

/-! ## Slots of a link -/

theorem EthernetChannel.attach_second_null_slot (w : World) (L : ChanId) (d : DevId)
    (hn : (w.channels L).m_nDevices = 1) (h0 : (w.channels L).m_devices 0 = none) :
    EthernetChannel.Attach w L (some d) = Except.error Fatal.nullPointer := by
  rw [EthernetChannel.attach_second w L d hn]
  simp [csmaAttach, h0]

theorem EthernetChannel.attach_slots (w w1 : World) (L : ChanId) (dev : Option DevId)
    (h : EthernetChannel.Attach w L dev = Except.ok w1) :
    ∃ (hlt : (w.channels L).m_nDevices < N_DEVICES) (d : DevId), dev = some d ∧
      (w1.channels L).m_devices =
        Function.update (w.channels L).m_devices ⟨(w.channels L).m_nDevices, hlt⟩ (some d) ∧
      (w1.channels L).m_nDevices = (w.channels L).m_nDevices + 1 := by
  obtain ⟨hlt, d, hd, hu, _, _, _⟩ := EthernetChannel.attach_frame w w1 L dev h
  refine ⟨hlt, d, hd, ?_, ?_⟩
  · simpa [EthernetChannel.unwired] using congrArg EthernetChannel.m_devices hu
  · simpa [EthernetChannel.unwired] using congrArg EthernetChannel.m_nDevices hu

/-- After a successful run of attaches on a link whose slots were empty, the slots hold the
attached endpoints in attach order, at most two of them. -/
theorem attachAll_slots (w w1 : World) (L : ChanId) (es : List DevId)
    (hempty : ∀ i, (w.channels L).m_devices i = none)
    (hrun : attachAll w L (es.map some) = Except.ok w1) :
    es.length ≤ 2 ∧ (∀ i : Fin N_DEVICES, (w1.channels L).m_devices i = es.get? i) ∧
      (es ≠ [] → (w1.channels L).m_nDevices = es.length) := by
  rcases es with _ | ⟨E0, _ | ⟨E1, _ | ⟨E2, rest⟩⟩⟩
  · have e := (Except.ok.inj hrun).symm
    subst e
    simp [hempty]
  all_goals
    simp only [List.map_cons, List.map_nil, attachAll] at hrun
    obtain ⟨wa, ha, hrun2⟩ := bind_ok_inv _ _ _ hrun
    obtain ⟨hlt, d, hd, hda, hna⟩ := EthernetChannel.attach_slots w wa L _ ha
    have hd0 : E0 = d := by simpa using hd
    subst hd0
    have hn0 : (w.channels L).m_nDevices = 0 := by
      by_contra hne
      have h1 : (w.channels L).m_nDevices = 1 := by simp only [N_DEVICES] at hlt; omega
      rw [EthernetChannel.attach_second_null_slot w L E0 h1 (hempty 0)] at ha
      simp at ha
    have hi0 : (⟨(w.channels L).m_nDevices, hlt⟩ : Fin N_DEVICES) = 0 := by
      apply Fin.ext; simp [hn0]
    rw [hi0] at hda
  · have e := (Except.ok.inj hrun2).symm
    subst e
    refine ⟨by simp, fun i => ?_, fun _ => by simp [hna, hn0]⟩
    rw [hda]
    fin_cases i <;> simp [hempty]
  all_goals
    obtain ⟨wb, hb, hrun3⟩ := bind_ok_inv _ _ _ hrun2
    obtain ⟨hltb, d1, hd1, hdb, hnb⟩ := EthernetChannel.attach_slots wa wb L _ hb
    have hd10 : E1 = d1 := by simpa using hd1
    subst hd10
    have hi1 : (⟨(wa.channels L).m_nDevices, hltb⟩ : Fin N_DEVICES) = 1 := by
      apply Fin.ext; simp [hna, hn0]
    rw [hi1] at hdb
  · have e := (Except.ok.inj hrun3).symm
    subst e
    refine ⟨by simp, fun i => ?_, fun _ => by simp [hnb, hna, hn0]⟩
    rw [hdb, hda]
    fin_cases i <;> simp [hempty]
  · obtain ⟨wc, hc, _⟩ := bind_ok_inv _ _ _ hrun3
    rw [EthernetChannel.attach_full wb L _ (by omega)] at hc
    simp at hc

/-! ## Configuration of an endpoint -/

theorem EthernetNetDevice.setMac48Address_eq (d : EthernetNetDevice) (tx rx : CsmaNetDevice)
    (htx : d.m_txDev = some tx) (hrx : d.m_rxDev = some rx) (address : Mac48Address) :
    d.SetMac48Address address = Except.ok (true, { d with
      m_address := address
      m_txDev := some { tx with m_address := address }
      m_rxDev := some { rx with m_address := address } }) := by
  simp [EthernetNetDevice.SetMac48Address, htx, hrx, CsmaNetDevice.SetAddress,
    Mac48Address.ConvertFrom, Mac48Address.ConvertTo]

theorem EthernetNetDevice.setAddress_eq (d : EthernetNetDevice) (tx rx : CsmaNetDevice)
    (htx : d.m_txDev = some tx) (hrx : d.m_rxDev = some rx) (address : Mac48Address) :
    d.SetAddress address.ConvertTo = Except.ok { d with
      m_address := address
      m_txDev := some { tx with m_address := address }
      m_rxDev := some { rx with m_address := address } } := by
  simp [EthernetNetDevice.SetAddress, Mac48Address.ConvertFrom, Mac48Address.ConvertTo,
    EthernetNetDevice.setMac48Address_eq d tx rx htx hrx]

theorem EthernetNetDevice.setMtu_eq (d : EthernetNetDevice) (tx : CsmaNetDevice)
    (htx : d.m_txDev = some tx) (mtu : Nat) (hmtu : mtu < 2 ^ 16) :
    d.SetMtu mtu = Except.ok (true, { d with
      m_mtu := mtu
      m_txDev := some { tx with m_mtu := mtu } }) := by
  have hm : mtu < 65536 := by simpa using hmtu
  simp [EthernetNetDevice.SetMtu, htx, CsmaNetDevice.SetMtu, Nat.mod_eq_of_lt hm]

theorem EthernetNetDevice.setEncapsulationMode_eq (d : EthernetNetDevice) (tx : CsmaNetDevice)
    (htx : d.m_txDev = some tx) (mode : EncapsulationMode) :
    d.SetEncapsulationMode mode = Except.ok { d with
      m_encapMode := mode
      m_txDev := some { tx with m_encapMode := mode } } := by
  simp [EthernetNetDevice.SetEncapsulationMode, htx, CsmaNetDevice.SetEncapsulationMode]

/-! ## The cross-wiring in general -/

/-- What a successful second attach leaves, whether or not the two endpoints are the same:
each sub-link has gained exactly two interfaces, and the interfaces of the endpoint attached
last point to sub-link B (tx) and sub-link A (rx). -/
theorem EthernetChannel.attach_second_inv (w w2 : World) (L : ChanId) (E0 E1 : DevId)
    (hn : (w.channels L).m_nDevices = 1) (h0 : (w.channels L).m_devices 0 = some E0)
    (h2 : EthernetChannel.Attach w L (some E1) = Except.ok w2) :
    ∃ a b, (w.channels L).m_chan0 = some a ∧ (w.channels L).m_chan1 = some b ∧
      (w2.channels L).m_chan0 = some { a with
        m_deviceList := a.m_deviceList ++ [⟨E0, SubIface.tx⟩, ⟨E1, SubIface.rx⟩] } ∧
      (w2.channels L).m_chan1 = some { b with
        m_deviceList := b.m_deviceList ++ [⟨E0, SubIface.rx⟩, ⟨E1, SubIface.tx⟩] } ∧
      (w2.devices E1).m_txDev.bind CsmaNetDevice.m_channel = some ⟨L, SubLink.chan1⟩ ∧
      (w2.devices E1).m_rxDev.bind CsmaNetDevice.m_channel = some ⟨L, SubLink.chan0⟩ ∧
      (w2.channels L).m_devices = Function.update (w.channels L).m_devices 1 (some E1) ∧
      (w2.channels L).m_nDevices = 2 := by
  rw [EthernetChannel.attach_second w L E1 hn] at h2
  have h01 : (1 : Fin N_DEVICES) ≠ 0 := by decide
  simp only [Function.update_same, h0] at h2
  obtain ⟨wa, ha, h3⟩ := bind_ok_inv _ _ _ h2
  obtain ⟨d, t0, a, hd, ht0, ha0, rfl⟩ := csmaAttach_ok_inv _ _ _ _ _ _ ha
  clear ha h2
  simp at hd
  subst hd
  simp [EthernetNetDevice.iface, EthernetNetDevice.GetTxDevice, EthernetChannel.subLink] at ht0 ha0
  simp [EthernetNetDevice.setIface, EthernetChannel.setSubLink, h0] at h3
  obtain ⟨wb, hb, h4⟩ := bind_ok_inv _ _ _ h3
  obtain ⟨d, r0, b, hd, hr0, hb0, rfl⟩ := csmaAttach_ok_inv _ _ _ _ _ _ hb
  clear hb h3
  simp at hd
  subst hd
  simp [EthernetNetDevice.iface, EthernetNetDevice.GetRxDevice, EthernetChannel.subLink] at hr0 hb0
  simp [EthernetNetDevice.setIface, EthernetChannel.setSubLink] at h4
  obtain ⟨wc, hc, h5⟩ := bind_ok_inv _ _ _ h4
  obtain ⟨d, t1, b1, hd, ht1, hb1, rfl⟩ := csmaAttach_ok_inv _ _ _ _ _ _ hc
  clear hc h4
  simp at hd
  subst hd
  simp [EthernetChannel.subLink] at hb1
  subst hb1
  simp [EthernetNetDevice.setIface, EthernetChannel.setSubLink] at h5
  obtain ⟨d, r1, a1, hd, hr1, ha1, rfl⟩ := csmaAttach_ok_inv _ _ _ _ _ _ h5
  clear h5
  simp at hd
  subst hd
  simp [EthernetChannel.subLink] at ha1
  subst ha1
  refine ⟨a, b, ha0, hb0, ?_, ?_, ?_, ?_, ?_, ?_⟩
  · simp [EthernetChannel.setSubLink]
  · simp [EthernetChannel.setSubLink]
  · simp [EthernetNetDevice.setIface]
  · simp [EthernetNetDevice.setIface]
  · simp [EthernetChannel.setSubLink]
  · simp [EthernetChannel.setSubLink]

theorem csmaAttach_other_channels (w w1 : World) (dev : Option DevId) (side : SubIface)
    (chan : ChanId) (sub : SubLink) (h : csmaAttach w dev side chan sub = Except.ok w1)
    (c : ChanId) (hc : c ≠ chan) : w1.channels c = w.channels c := by
  obtain ⟨d, i, ch, _, _, _, rfl⟩ := csmaAttach_ok_inv _ _ _ _ _ _ h
  simp [Function.update_noteq hc]

/-- An attach to one link leaves every other link exactly as it was. -/
theorem EthernetChannel.attach_other_channels (w w1 : World) (L : ChanId) (dev : Option DevId)
    (h : EthernetChannel.Attach w L dev = Except.ok w1) (c : ChanId) (hc : c ≠ L) :
    w1.channels c = w.channels c := by
  unfold EthernetChannel.Attach at h
  by_cases hlt : (w.channels L).m_nDevices < N_DEVICES
  · cases dev with
    | none => simp [hlt] at h
    | some d =>
      simp only [hlt, dite_true, Option.isSome_some, NS_ASSERT_true, ok_bind] at h
      by_cases h2 : (w.channels L).m_nDevices + 1 = N_DEVICES
      · simp only [h2, if_true] at h
        obtain ⟨wa, ha, h⟩ := bind_ok_inv _ _ _ h
        obtain ⟨wb, hb, h⟩ := bind_ok_inv _ _ _ h
        obtain ⟨wc, hcc, h⟩ := bind_ok_inv _ _ _ h
        rw [csmaAttach_other_channels _ _ _ _ _ _ h c hc,
          csmaAttach_other_channels _ _ _ _ _ _ hcc c hc,
          csmaAttach_other_channels _ _ _ _ _ _ hb c hc,
          csmaAttach_other_channels _ _ _ _ _ _ ha c hc]
        simp [World.setChannel, Function.update_noteq hc]
      · simp only [h2, if_false, pure_eq_ok] at h
        have e := (Except.ok.inj h).symm
        subst e
        simp [World.setChannel, Function.update_noteq hc]
  · simp [hlt] at h

/-- The first attach on a link whose slots are empty can only succeed from a counter that
reads zero. -/
theorem EthernetChannel.attach_empty_counter (w w1 : World) (L : ChanId) (E0 : DevId)
    (hempty : (w.channels L).m_devices 0 = none)
    (h1 : EthernetChannel.Attach w L (some E0) = Except.ok w1) :
    (w.channels L).m_nDevices = 0 := by
  obtain ⟨hlt, _, _, _, _⟩ := EthernetChannel.attach_slots w w1 L _ h1
  by_contra hne
  have hone : (w.channels L).m_nDevices = 1 := by simp only [N_DEVICES] at hlt; omega
  rw [EthernetChannel.attach_second_null_slot w L E0 hone hempty] at h1
  simp at h1

/-- How `EthernetNetDevice::Attach` decomposes when it succeeds. -/
theorem EthernetNetDevice.attach_inv (w w1 : World) (E : DevId) (L : ChanId) (b : Bool)
    (h : EthernetNetDevice.Attach w E (some L) = Except.ok (b, w1)) :
    b = true ∧ ∃ w2, EthernetChannel.Attach
        (w.setDevice E { w.devices E with m_channel := some L }) L (some E) = Except.ok w2 ∧
      w1 = EthernetNetDevice.NotifyLinkUp w2 E := by
  simp only [EthernetNetDevice.Attach, Option.isSome_some, NS_ASSERT_true, ok_bind] at h
  have hd : ((w.setDevice E { w.devices E with m_channel := some L }).devices E).m_channel =
      some L := by simp [World.setDevice]
  rw [hd] at h
  simp only [deref_some, ok_bind] at h
  obtain ⟨w2, h2, h3⟩ := bind_ok_inv _ _ _ h
  have e := Except.ok.inj h3
  simp only [Prod.mk.injEq] at e
  exact ⟨e.1.symm, w2, h2, e.2.symm⟩

/-- When `EthernetNetDevice::Attach` succeeds on well-formed objects. -/
theorem EthernetNetDevice.attach_ok (w : World) (E : DevId) (L : ChanId)
    (hE : (w.devices E).isLive = true) (hL : (w.channels L).isLive = true)
    (hn : (w.channels L).m_nDevices < 2)
    (h0 : (w.channels L).m_nDevices = 1 →
      ∃ E0, (w.channels L).m_devices 0 = some E0 ∧ (w.devices E0).isLive = true) :
    ∃ w2, EthernetChannel.Attach
        (w.setDevice E { w.devices E with m_channel := some L }) L (some E) = Except.ok w2 ∧
      EthernetNetDevice.Attach w E (some L) =
        Except.ok (true, EthernetNetDevice.NotifyLinkUp w2 E) := by
  generalize hw0 : w.setDevice E { w.devices E with m_channel := some L } = w0
  have hch : w0.channels = w.channels := by subst hw0; rfl
  have hdevE : (w0.devices E).m_channel = some L := by subst hw0; simp [World.setDevice]
  have hlive : ∀ e, (w.devices e).isLive = true → (w0.devices e).isLive = true := by
    intro e he
    subst hw0
    by_cases hee : e = E
    · subst hee
      simpa [World.setDevice, EthernetNetDevice.isLive] using he
    · simpa [World.setDevice, Function.update_noteq hee] using he
  have hA : ∃ w2, EthernetChannel.Attach w0 L (some E) = Except.ok w2 := by
    by_cases hz : (w.channels L).m_nDevices = 0
    · exact ⟨_, EthernetChannel.attach_first w0 L E (by rw [hch]; exact hz)⟩
    · have h1 : (w.channels L).m_nDevices = 1 := by omega
      obtain ⟨E0, hs, hE0⟩ := h0 h1
      exact EthernetChannel.attach_second_ok w0 L E0 E (by rw [hch]; exact h1)
        (by rw [hch]; exact hs) (by rw [hch]; exact hL) (hlive E0 hE0) (hlive E hE)
  obtain ⟨w2, hA⟩ := hA
  refine ⟨w2, hA, ?_⟩
  simp [EthernetNetDevice.Attach, hw0, hdevE, hA]

theorem EthernetNetDevice.notifyLinkUp_channels (w : World) (E : DevId) :
    (EthernetNetDevice.NotifyLinkUp w E).channels = w.channels := rfl

theorem EthernetNetDevice.notifyLinkUp_ifaces (w : World) (E e : DevId) :
    ((EthernetNetDevice.NotifyLinkUp w E).devices e).m_txDev = (w.devices e).m_txDev ∧
    ((EthernetNetDevice.NotifyLinkUp w E).devices e).m_rxDev = (w.devices e).m_rxDev := by
  by_cases h : e = E
  · subst h; simp [EthernetNetDevice.NotifyLinkUp, World.setDevice]
  · simp [EthernetNetDevice.NotifyLinkUp, World.setDevice, Function.update_noteq h]

/-- A successful attach of the endpoint that a link already holds in its first slot, the
sub-links being still empty, leaves the endpoint wired to itself. -/
theorem EthernetChannel.self_wired_of_second (w w2 : World) (L : ChanId) (E : DevId)
    (hn : (w.channels L).m_nDevices = 1) (h0 : (w.channels L).m_devices 0 = some E)
    (hl0 : (w.channels L).m_chan0.map CsmaChannel.m_deviceList = some [])
    (hl1 : (w.channels L).m_chan1.map CsmaChannel.m_deviceList = some [])
    (h2 : EthernetChannel.Attach w L (some E) = Except.ok w2) : SelfWired w2 L E := by
  obtain ⟨a, b, ha, hb, ha2, hb2, htx, hrx, hdev, hcount⟩ :=
    EthernetChannel.attach_second_inv w w2 L E E hn h0 h2
  have hal : a.m_deviceList = [] := by simpa [ha] using hl0
  have hbl : b.m_deviceList = [] := by simpa [hb] using hl1
  refine ⟨hcount, ?_, ?_, by simp [ha2, hal], by simp [hb2, hbl], htx, hrx⟩
  · have : (w2.channels L).m_devices 0 = some E := by rw [hdev]; simp [h0]
    simpa [EthernetChannel.GetDevice, EthernetChannel.GetEthernetDevice] using this
  · have : (w2.channels L).m_devices 1 = some E := by rw [hdev]; simp
    simpa [EthernetChannel.GetDevice, EthernetChannel.GetEthernetDevice] using this

theorem selfWired_notifyLinkUp (w : World) (L : ChanId) (E e : DevId) (h : SelfWired w L E) :
    SelfWired (EthernetNetDevice.NotifyLinkUp w e) L E := by
  unfold SelfWired at h ⊢
  rw [EthernetNetDevice.notifyLinkUp_channels, (EthernetNetDevice.notifyLinkUp_ifaces w e E).1,
    (EthernetNetDevice.notifyLinkUp_ifaces w e E).2]
  exact h

/-! ## Receive callbacks -/

theorem EthernetNetDevice.setReceiveCallback_null (w : World) (E : DevId) (rx : CsmaNetDevice)
    (hrx : (w.devices E).m_rxDev = some rx) :
    EthernetNetDevice.SetReceiveCallback w E none = Except.ok (w.setDevice E { w.devices E with
      m_rxCallback := none
      m_rxDev := some { rx with m_rxCallback := ReceiveCallback.null } }) := by
  simp [EthernetNetDevice.SetReceiveCallback, hrx, CsmaNetDevice.SetReceiveCallback,
    ReceiveCallback.ofUser]

theorem EthernetNetDevice.setReceiveCallback_some (w : World) (E : DevId) (rx : CsmaNetDevice)
    (hrx : (w.devices E).m_rxDev = some rx) (cb : CallbackId) :
    EthernetNetDevice.SetReceiveCallback w E (some cb) = Except.ok (w.setDevice E
      { w.devices E with
        m_rxCallback := some cb
        m_rxDev := some { rx with
          m_rxCallback := ReceiveCallback.NonPromiscReceiveFromDevice E } }) := by
  simp [EthernetNetDevice.SetReceiveCallback, hrx, CsmaNetDevice.SetReceiveCallback]

theorem EthernetNetDevice.setPromiscReceiveCallback_null (w : World) (E : DevId)
    (rx : CsmaNetDevice) (hrx : (w.devices E).m_rxDev = some rx) :
    EthernetNetDevice.SetPromiscReceiveCallback w E none = Except.ok (w.setDevice E
      { w.devices E with
        m_promiscRxCallback := none
        m_rxDev := some { rx with m_promiscRxCallback := PromiscReceiveCallback.null } }) := by
  simp [EthernetNetDevice.SetPromiscReceiveCallback, hrx, CsmaNetDevice.SetPromiscReceiveCallback,
    PromiscReceiveCallback.ofUser]

theorem EthernetNetDevice.setPromiscReceiveCallback_some (w : World) (E : DevId)
    (rx : CsmaNetDevice) (hrx : (w.devices E).m_rxDev = some rx) (cb : CallbackId) :
    EthernetNetDevice.SetPromiscReceiveCallback w E (some cb) = Except.ok (w.setDevice E
      { w.devices E with
        m_promiscRxCallback := some cb
        m_rxDev := some { rx with
          m_promiscRxCallback := PromiscReceiveCallback.PromiscReceiveFromDevice E } }) := by
  simp [EthernetNetDevice.SetPromiscReceiveCallback, hrx, CsmaNetDevice.SetPromiscReceiveCallback]

theorem EthernetNetDevice.setReceiveCallback_inv (w w1 : World) (E : DevId) (cb : CallbackId)
    (h : EthernetNetDevice.SetReceiveCallback w E (some cb) = Except.ok w1) :
    ∃ rx, (w.devices E).m_rxDev = some rx ∧ w1 = w.setDevice E { w.devices E with
      m_rxCallback := some cb
      m_rxDev := some { rx with
        m_rxCallback := ReceiveCallback.NonPromiscReceiveFromDevice E } } := by
  cases hrx : (w.devices E).m_rxDev with
  | none => simp [EthernetNetDevice.SetReceiveCallback, hrx] at h
  | some rx =>
    rw [EthernetNetDevice.setReceiveCallback_some w E rx hrx cb] at h
    exact ⟨rx, rfl, (Except.ok.inj h).symm⟩

theorem EthernetNetDevice.setPromiscReceiveCallback_inv (w w1 : World) (E : DevId)
    (cb : CallbackId)
    (h : EthernetNetDevice.SetPromiscReceiveCallback w E (some cb) = Except.ok w1) :
    ∃ rx, (w.devices E).m_rxDev = some rx ∧ w1 = w.setDevice E { w.devices E with
      m_promiscRxCallback := some cb
      m_rxDev := some { rx with
        m_promiscRxCallback := PromiscReceiveCallback.PromiscReceiveFromDevice E } } := by
  cases hrx : (w.devices E).m_rxDev with
  | none => simp [EthernetNetDevice.SetPromiscReceiveCallback, hrx] at h
  | some rx =>
    rw [EthernetNetDevice.setPromiscReceiveCallback_some w E rx hrx cb] at h
    exact ⟨rx, rfl, (Except.ok.inj h).symm⟩

/-! ## Trace fan-out -/

theorem ProxyTracedCallback.ctor_inv (name : String) (obj1 obj2 : Option ObjectRef)
    (p : ProxyTracedCallback) (h : ProxyTracedCallback.ctor name obj1 obj2 = Except.ok p) :
    ∃ o1, obj1 = some o1 ∧ p = { m_name := name, m_obj1 := some o1, m_obj2 := obj2 } := by
  cases obj1 with
  | none => simp [ProxyTracedCallback.ctor] at h
  | some o1 =>
    simp [ProxyTracedCallback.ctor] at h
    exact ⟨o1, rfl, h.symm⟩

theorem ProxyTracedCallback.ctor_ok (name : String) (o1 : ObjectRef) (obj2 : Option ObjectRef) :
    ProxyTracedCallback.ctor name (some o1) obj2 =
      Except.ok { m_name := name, m_obj1 := some o1, m_obj2 := obj2 } := by
  simp [ProxyTracedCallback.ctor]

/-- A connect followed by a disconnect of the same callback and context on a fan-out removes
that subscription from every present target and changes nothing else. -/
theorem ProxyTracedCallback.connect_then_disconnect (name : String) (o1 : ObjectRef)
    (obj2 : Option ObjectRef) (T : TraceState) (cb : CallbackId) (context : String) :
    ∃ T1 T2, ProxyTracedCallback.Connect ⟨name, some o1, obj2⟩ T cb context = Except.ok T1 ∧
      ProxyTracedCallback.Disconnect ⟨name, some o1, obj2⟩ T1 cb context = Except.ok T2 ∧
      ∀ o, T2.connected o = if o = o1 ∨ obj2 = some o
        then (T.connected o).filter (fun s => decide (s ≠ ⟨name, some context, cb⟩))
        else T.connected o := by
  cases obj2 with
  | none =>
    refine ⟨o1.TraceConnect T name context cb,
      o1.TraceDisconnect (o1.TraceConnect T name context cb) name context cb, ?_, ?_, ?_⟩
    · simp [ProxyTracedCallback.Connect]
    · simp [ProxyTracedCallback.Disconnect]
    · intro o
      by_cases h : o = o1
      · subst h
        simp [ObjectRef.TraceConnect, ObjectRef.TraceDisconnect, List.filter_append]
      · simp [ObjectRef.TraceConnect, ObjectRef.TraceDisconnect, Function.update_noteq h, h]
  | some o2 =>
    refine ⟨o2.TraceConnect (o1.TraceConnect T name context cb) name context cb,
      o2.TraceDisconnect (o1.TraceDisconnect
        (o2.TraceConnect (o1.TraceConnect T name context cb) name context cb)
        name context cb) name context cb, ?_, ?_, ?_⟩
    · simp [ProxyTracedCallback.Connect]
    · simp [ProxyTracedCallback.Disconnect]
    · intro o
      by_cases h2 : o = o2
      · subst h2
        by_cases h1 : o = o1
        · subst h1
          simp [ObjectRef.TraceConnect, ObjectRef.TraceDisconnect, List.filter_append]
        · simp [ObjectRef.TraceConnect, ObjectRef.TraceDisconnect, Function.update_noteq h1, h1,
            List.filter_append, List.filter_filter]
      · have h2' : ¬ o2 = o := fun e => h2 e.symm
        by_cases h1 : o = o1
        · subst h1
          simp [ObjectRef.TraceConnect, ObjectRef.TraceDisconnect, Function.update_noteq h2, h2',
            List.filter_append]
        · simp [ObjectRef.TraceConnect, ObjectRef.TraceDisconnect, Function.update_noteq h2,
            Function.update_noteq h1, h1, h2']

/-- A connect followed by a disconnect of the same callback, both without context, on a
fan-out removes that subscription from every present target and changes nothing else. -/
theorem ProxyTracedCallback.connect_then_disconnect_without_context (name : String)
    (o1 : ObjectRef) (obj2 : Option ObjectRef) (T : TraceState) (cb : CallbackId) :
    ∃ T1 T2, ProxyTracedCallback.ConnectWithoutContext ⟨name, some o1, obj2⟩ T cb =
        Except.ok T1 ∧
      ProxyTracedCallback.DisconnectWithoutContext ⟨name, some o1, obj2⟩ T1 cb = Except.ok T2 ∧
      ∀ o, T2.connected o = if o = o1 ∨ obj2 = some o
        then (T.connected o).filter (fun s => decide (s ≠ ⟨name, none, cb⟩))
        else T.connected o := by
  cases obj2 with
  | none =>
    refine ⟨o1.TraceConnectWithoutContext T name cb,
      o1.TraceDisconnectWithoutContext (o1.TraceConnectWithoutContext T name cb) name cb,
      ?_, ?_, ?_⟩
    · simp [ProxyTracedCallback.ConnectWithoutContext]
    · simp [ProxyTracedCallback.DisconnectWithoutContext]
    · intro o
      by_cases h : o = o1
      · subst h
        simp [ObjectRef.TraceConnectWithoutContext, ObjectRef.TraceDisconnectWithoutContext,
          List.filter_append]
      · simp [ObjectRef.TraceConnectWithoutContext, ObjectRef.TraceDisconnectWithoutContext,
          Function.update_noteq h, h]
  | some o2 =>
    refine ⟨o2.TraceConnectWithoutContext (o1.TraceConnectWithoutContext T name cb) name cb,
      o2.TraceDisconnectWithoutContext (o1.TraceDisconnectWithoutContext
        (o2.TraceConnectWithoutContext (o1.TraceConnectWithoutContext T name cb) name cb)
        name cb) name cb, ?_, ?_, ?_⟩
    · simp [ProxyTracedCallback.ConnectWithoutContext]
    · simp [ProxyTracedCallback.DisconnectWithoutContext]
    · intro o
      by_cases h2 : o = o2
      · subst h2
        by_cases h1 : o = o1
        · subst h1
          simp [ObjectRef.TraceConnectWithoutContext, ObjectRef.TraceDisconnectWithoutContext,
            List.filter_append]
        · simp [ObjectRef.TraceConnectWithoutContext, ObjectRef.TraceDisconnectWithoutContext,
            Function.update_noteq h1, h1, List.filter_append, List.filter_filter]
      · have h2' : ¬ o2 = o := fun e => h2 e.symm
        by_cases h1 : o = o1
        · subst h1
          simp [ObjectRef.TraceConnectWithoutContext, ObjectRef.TraceDisconnectWithoutContext,
            Function.update_noteq h2, h2', List.filter_append]
        · simp [ObjectRef.TraceConnectWithoutContext, ObjectRef.TraceDisconnectWithoutContext,
            Function.update_noteq h2, Function.update_noteq h1, h1, h2']

theorem EthernetNetDevice.ctorTraces_eq (self : DevId) :
    EthernetNetDevice.ctorTraces self = Except.ok (EthernetTraces.created self) := by
  simp [EthernetNetDevice.ctorTraces, ProxyTracedCallback.ctor_ok, EthernetTraces.created]

theorem TraceState.deliveries_connect (T : TraceState) (o : ObjectRef) (n : String)
    (cb : CallbackId) :
    (o.TraceConnectWithoutContext T n cb).deliveries o n cb = T.deliveries o n cb + 1 := by
  simp [TraceState.deliveries, ObjectRef.TraceConnectWithoutContext, List.countP_append]

theorem TraceState.deliveries_connect_other (T : TraceState) (o o1 : ObjectRef) (n : String)
    (cb : CallbackId) (h : o1 ≠ o) :
    (o.TraceConnectWithoutContext T n cb).deliveries o1 n cb = T.deliveries o1 n cb := by
  simp [TraceState.deliveries, ObjectRef.TraceConnectWithoutContext, Function.update_noteq h]

/-- Connecting to a trace source of the endpoint whose fan-out has one target registers the
callback once, on that target only. -/
theorem EthernetTraces.connect_single (t : EthernetTraces) (T : TraceState) (n : String)
    (cb : CallbackId) (o : ObjectRef) (h : t.traceSource n = some ⟨n, some o, none⟩) :
    ∃ T1, t.TraceConnectWithoutContext T n cb = Except.ok (true, T1) ∧
      T1.calls = T.calls ++ [⟨TraceOp.TraceConnectWithoutContext, o, n, none, cb⟩] ∧
      T1.deliveries o n cb = T.deliveries o n cb + 1 ∧
      ∀ o1, o1 ≠ o → T1.connected o1 = T.connected o1 := by
  refine ⟨o.TraceConnectWithoutContext T n cb, ?_, rfl, TraceState.deliveries_connect T o n cb,
    fun o1 h1 => ?_⟩
  · simp [EthernetTraces.TraceConnectWithoutContext, h, ProxyTracedCallback.ConnectWithoutContext]
  · simp [ObjectRef.TraceConnectWithoutContext, Function.update_noteq h1]

/-- Connecting to a trace source of the endpoint whose fan-out has two distinct targets
registers the callback once on each of them. -/
theorem EthernetTraces.connect_double (t : EthernetTraces) (T : TraceState) (n : String)
    (cb : CallbackId) (o1 o2 : ObjectRef) (hne : o1 ≠ o2)
    (h : t.traceSource n = some ⟨n, some o1, some o2⟩) :
    ∃ T1, t.TraceConnectWithoutContext T n cb = Except.ok (true, T1) ∧
      T1.calls = T.calls ++ [⟨TraceOp.TraceConnectWithoutContext, o1, n, none, cb⟩,
        ⟨TraceOp.TraceConnectWithoutContext, o2, n, none, cb⟩] ∧
      T1.deliveries o1 n cb = T.deliveries o1 n cb + 1 ∧
      T1.deliveries o2 n cb = T.deliveries o2 n cb + 1 ∧
      ∀ o, o ≠ o1 → o ≠ o2 → T1.connected o = T.connected o := by
  refine ⟨o2.TraceConnectWithoutContext (o1.TraceConnectWithoutContext T n cb) n cb, ?_, ?_, ?_,
    ?_, fun o h1 h2 => ?_⟩
  · simp [EthernetTraces.TraceConnectWithoutContext, h, ProxyTracedCallback.ConnectWithoutContext]
  · simp [ObjectRef.TraceConnectWithoutContext]
  · rw [TraceState.deliveries_connect_other _ o2 o1 n cb hne, TraceState.deliveries_connect]
  · rw [TraceState.deliveries_connect]
    rw [TraceState.deliveries_connect_other _ o1 o2 n cb hne.symm]
  · simp [ObjectRef.TraceConnectWithoutContext, Function.update_noteq h1, Function.update_noteq h2]

/-! ## Attaching one endpoint twice -/

/-- On every freshly created link, the first attach of an endpoint cannot succeed unless the
counter, which the constructor leaves unwritten, reads zero: from 1 the cross-wiring
dereferences the empty slot 0, from 2 on the capacity assertion fails. -/
theorem EthernetChannel.attach_fresh_fails_of_nonzero (w : World) (L : ChanId) (garbage : Nat)
    (attrs : ChannelAttributes) (E : DevId)
    (hfresh : EthernetChannel.CreateObject garbage attrs = Except.ok (w.channels L))
    (hg : garbage % 2 ^ 32 ≠ 0) :
    (∀ w1, EthernetChannel.Attach w L (some E) ≠ Except.ok w1) ∧
    (∀ r, EthernetNetDevice.Attach w E (some L) ≠ Except.ok r) := by
  have hc := EthernetChannel.created_of_createObject _ _ _ hfresh
  have hempty : (w.channels L).m_devices 0 = none := by rw [hc]; rfl
  have hn : (w.channels L).m_nDevices = garbage % 2 ^ 32 := by rw [hc]; rfl
  constructor
  · intro w1 h1
    exact hg (hn ▸ EthernetChannel.attach_empty_counter w w1 L E hempty h1)
  · intro r h1
    obtain ⟨_, wa, ha, _⟩ := EthernetNetDevice.attach_inv w r.2 E L r.1 h1
    generalize hw0 : w.setDevice E { w.devices E with m_channel := some L } = w0 at ha
    have hch0 : w0.channels = w.channels := by subst hw0; rfl
    exact hg (hn ▸ hch0 ▸ EthernetChannel.attach_empty_counter w0 wa L E
      (by rw [hch0]; exact hempty) ha)

/-- On every freshly created link, whenever the same endpoint E has been attached twice, be it
by `EthernetChannel::Attach` or by `EthernetNetDevice::Attach` (which then returned true both
times), `GetNDevices ()` is 2, `GetDevice (0)` and `GetDevice (1)` both return E, sub-link A
carries the tx and then the rx interface of E and sub-link B the rx and then the tx interface
of E, and the tx interface of E transmits on sub-link B, on which the rx interface of E
listens.  Both attaches succeed when the counter of the fresh link reads zero and E owns its
interfaces. -/
theorem EthernetChannel.duplicate_attach_self_wired (w : World) (L : ChanId) (garbage : Nat)
    (attrs : ChannelAttributes) (E : DevId)
    (hfresh : EthernetChannel.CreateObject garbage attrs = Except.ok (w.channels L)) :
    (∀ w1 w2, EthernetChannel.Attach w L (some E) = Except.ok w1 →
      EthernetChannel.Attach w1 L (some E) = Except.ok w2 → SelfWired w2 L E) ∧
    (∀ b1 b2 w1 w2, EthernetNetDevice.Attach w E (some L) = Except.ok (b1, w1) →
      EthernetNetDevice.Attach w1 E (some L) = Except.ok (b2, w2) →
      b1 = true ∧ b2 = true ∧ SelfWired w2 L E) ∧
    (garbage % 2 ^ 32 = 0 → (w.devices E).isLive = true →
      (∃ w1 w2, EthernetChannel.Attach w L (some E) = Except.ok w1 ∧
        EthernetChannel.Attach w1 L (some E) = Except.ok w2) ∧
      (∃ w1 w2, EthernetNetDevice.Attach w E (some L) = Except.ok (true, w1) ∧
        EthernetNetDevice.Attach w1 E (some L) = Except.ok (true, w2))) := by
  have hc := EthernetChannel.created_of_createObject _ _ _ hfresh
  have hempty : (w.channels L).m_devices 0 = none := by rw [hc]; rfl
  have hl0 : (w.channels L).m_chan0.map CsmaChannel.m_deviceList = some [] := by rw [hc]; rfl
  have hl1 : (w.channels L).m_chan1.map CsmaChannel.m_deviceList = some [] := by rw [hc]; rfl
  have hL : (w.channels L).isLive = true := by rw [hc]; rfl
  refine ⟨?_, ?_, ?_⟩
  · intro w1 w2 h1 h2
    have hn0 := EthernetChannel.attach_empty_counter w w1 L E hempty h1
    rw [EthernetChannel.attach_first w L E hn0] at h1
    have e1 := (Except.ok.inj h1).symm
    subst e1
    exact EthernetChannel.self_wired_of_second _ w2 L E (by simp) (by simp)
      (by simpa using hl0) (by simpa using hl1) h2
  · intro b1 b2 w1 w2 h1 h2
    obtain ⟨hb1, wa, ha, rfl⟩ := EthernetNetDevice.attach_inv w w1 E L b1 h1
    obtain ⟨hb2, wb, hb, rfl⟩ := EthernetNetDevice.attach_inv _ w2 E L b2 h2
    generalize hw0 : w.setDevice E { w.devices E with m_channel := some L } = w0 at ha
    have hch0 : w0.channels = w.channels := by subst hw0; rfl
    have hn0 := EthernetChannel.attach_empty_counter w0 wa L E (by rw [hch0]; exact hempty) ha
    rw [EthernetChannel.attach_first w0 L E hn0] at ha
    have ea := (Except.ok.inj ha).symm
    subst ea
    rw [← hch0] at hl0 hl1
    refine ⟨hb1, hb2, selfWired_notifyLinkUp wb L E E ?_⟩
    exact EthernetChannel.self_wired_of_second _ wb L E
      (by simp [World.setDevice, EthernetNetDevice.NotifyLinkUp])
      (by simp [World.setDevice, EthernetNetDevice.NotifyLinkUp])
      (by simpa [World.setDevice, EthernetNetDevice.NotifyLinkUp] using hl0)
      (by simpa [World.setDevice, EthernetNetDevice.NotifyLinkUp] using hl1) hb
  · intro hg hE
    have hn : (w.channels L).m_nDevices = 0 := by rw [hc]; exact hg
    constructor
    · obtain ⟨w1, w2, h1, _, h2, _, _⟩ :=
        EthernetChannel.attach_sequence_from_zero w L E E none hn hL hE hE
      exact ⟨w1, w2, h1, h2⟩
    · obtain ⟨wa, ha, hA1⟩ := EthernetNetDevice.attach_ok w E L hE hL (by omega)
        (fun h => absurd h (by omega))
      generalize hw0 : w.setDevice E { w.devices E with m_channel := some L } = w0 at ha
      have hch0 : w0.channels = w.channels := by subst hw0; rfl
      have hE0 : (w0.devices E).isLive = true := by
        subst hw0
        simpa [World.setDevice, EthernetNetDevice.isLive] using hE
      have ha' := ha
      rw [EthernetChannel.attach_first w0 L E (by rw [hch0]; exact hn)] at ha'
      have ea := (Except.ok.inj ha').symm
      rw [← hch0] at hL
      have hE1 : ((EthernetNetDevice.NotifyLinkUp wa E).devices E).isLive = true := by
        have hi := EthernetNetDevice.notifyLinkUp_ifaces wa E E
        subst ea
        simp only [EthernetNetDevice.isLive, hi.1, hi.2]
        simpa [EthernetNetDevice.isLive] using hE0
      have hL1 : ((EthernetNetDevice.NotifyLinkUp wa E).channels L).isLive = true := by
        subst ea
        simpa [EthernetNetDevice.NotifyLinkUp, World.setDevice, EthernetChannel.isLive] using hL
      have hn1 : ((EthernetNetDevice.NotifyLinkUp wa E).channels L).m_nDevices = 1 := by
        subst ea
        simp [EthernetNetDevice.NotifyLinkUp, World.setDevice]
      have hs1 : ((EthernetNetDevice.NotifyLinkUp wa E).channels L).m_devices 0 = some E := by
        subst ea
        simp [EthernetNetDevice.NotifyLinkUp, World.setDevice]
      obtain ⟨wb, _, hA2⟩ := EthernetNetDevice.attach_ok (EthernetNetDevice.NotifyLinkUp wa E) E L
        hE1 hL1 (by omega) (fun _ => ⟨E, hs1, hE1⟩)
      exact ⟨_, _, hA1, hA2⟩

/-! ## The claims -/

/-- C1, the code at the failing input.  The constructor never writes `m_nDevices`; when the
storage it occupies holds 2, the freshly created link reports two endpoints although none was
attached, and the very first attach of a non-null endpoint trips the assertion
`m_nDevices < N_DEVICES`. -/
theorem fresh_link_counter_uninitialised :
    EthernetChannel.CreateObject 2 ⟨none, none⟩ = Except.ok ((World.boot 2).channels 0) ∧
    ((World.boot 2).channels 0).GetNDevices = 2 ∧
    EthernetChannel.Attach (World.boot 2) 0 (some 0) = Except.error Fatal.assertion := by
  refine ⟨EthernetChannel.createObject_channel_eq _ _, rfl, ?_⟩
  exact EthernetChannel.attach_full _ _ _ (by decide)

/-- C2.  On every freshly created link, whenever two distinct endpoints E0 and then E1 have
been attached, the first attach wired nothing and the second cross-wired exactly: the tx
interface of E0 is on sub-link A (`m_chan0`), its rx interface on sub-link B (`m_chan1`), the
tx interface of E1 on sub-link B and its rx interface on sub-link A, so that sub-link A carries
exactly the tx interface of E0 and the rx interface of E1, and sub-link B exactly the rx
interface of E0 and the tx interface of E1.  The two attaches do succeed when the counter of
the fresh link reads zero and both endpoints own their interfaces. -/
theorem attach_cross_wires (w : World) (L : ChanId) (garbage : Nat) (attrs : ChannelAttributes)
    (E0 E1 : DevId)
    (hfresh : EthernetChannel.CreateObject garbage attrs = Except.ok (w.channels L))
    (hne : E0 ≠ E1) :
    (garbage % 2 ^ 32 = 0 → (w.devices E0).isLive = true → (w.devices E1).isLive = true →
      ∃ w1 w2, EthernetChannel.Attach w L (some E0) = Except.ok w1 ∧
        EthernetChannel.Attach w1 L (some E1) = Except.ok w2) ∧
    ∀ w1 w2, EthernetChannel.Attach w L (some E0) = Except.ok w1 →
      EthernetChannel.Attach w1 L (some E1) = Except.ok w2 →
      w1.devices = w.devices ∧
      (w1.channels L).m_chan0.map CsmaChannel.m_deviceList = some [] ∧
      (w1.channels L).m_chan1.map CsmaChannel.m_deviceList = some [] ∧
      (w2.devices E0).m_txDev.bind CsmaNetDevice.m_channel = some ⟨L, SubLink.chan0⟩ ∧
      (w2.devices E0).m_rxDev.bind CsmaNetDevice.m_channel = some ⟨L, SubLink.chan1⟩ ∧
      (w2.devices E1).m_txDev.bind CsmaNetDevice.m_channel = some ⟨L, SubLink.chan1⟩ ∧
      (w2.devices E1).m_rxDev.bind CsmaNetDevice.m_channel = some ⟨L, SubLink.chan0⟩ ∧
      (w2.channels L).m_chan0.map CsmaChannel.m_deviceList =
        some [⟨E0, SubIface.tx⟩, ⟨E1, SubIface.rx⟩] ∧
      (w2.channels L).m_chan1.map CsmaChannel.m_deviceList =
        some [⟨E0, SubIface.rx⟩, ⟨E1, SubIface.tx⟩] := by
  have hc := EthernetChannel.created_of_createObject _ _ _ hfresh
  constructor
  · intro hg hE0 hE1
    have hn : (w.channels L).m_nDevices = 0 := by rw [hc]; exact hg
    have hL : (w.channels L).isLive = true := by rw [hc]; rfl
    obtain ⟨w1, w2, h1, _, h2, _, _⟩ :=
      EthernetChannel.attach_sequence_from_zero w L E0 E1 none hn hL hE0 hE1
    exact ⟨w1, w2, h1, h2⟩
  · intro w1 w2 h1 h2
    have hn : (w.channels L).m_nDevices = 0 := by
      obtain ⟨hlt, _, _, hu, _, _, _⟩ := EthernetChannel.attach_frame w w1 L _ h1
      obtain ⟨hlt1, _, _, _, _, _, _⟩ := EthernetChannel.attach_frame w1 w2 L _ h2
      have hn1 := congrArg EthernetChannel.m_nDevices hu
      simp only [EthernetChannel.unwired] at hn1
      simp only [N_DEVICES] at hlt hlt1
      omega
    obtain ⟨a, b, ha, hb, hd, ha1, hb1, t0, r0, t1, r1, ha2, hb2⟩ :=
      EthernetChannel.attach_two_inv w w1 w2 L E0 E1 hne hn h1 h2
    have ha0 : a.m_deviceList = [] := by
      rw [hc] at ha
      simp [EthernetChannel.created, CsmaChannel.fresh] at ha
      rw [← ha]
    have hb0 : b.m_deviceList = [] := by
      rw [hc] at hb
      simp [EthernetChannel.created, CsmaChannel.fresh] at hb
      rw [← hb]
    refine ⟨hd, ?_, ?_, t0, r0, t1, r1, ?_, ?_⟩
    · simp [ha1, ha0]
    · simp [hb1, hb0]
    · simp [ha2, ha0]
    · simp [hb2, hb0]

/-- C2, witness: on a link created with a zero counter, attaching endpoint 0 and then
endpoint 1 succeeds and cross-wires. -/
theorem attach_cross_wires_witness :
    ∃ w1 w2, EthernetChannel.Attach (World.boot 0) 0 (some 0) = Except.ok w1 ∧
      EthernetChannel.Attach w1 0 (some 1) = Except.ok w2 ∧
      (w2.devices 0).m_txDev.bind CsmaNetDevice.m_channel = some ⟨0, SubLink.chan0⟩ ∧
      (w2.devices 1).m_rxDev.bind CsmaNetDevice.m_channel = some ⟨0, SubLink.chan0⟩ ∧
      (w2.channels 0).m_chan0.map CsmaChannel.m_deviceList =
        some [⟨0, SubIface.tx⟩, ⟨1, SubIface.rx⟩] ∧
      (w2.channels 0).m_chan1.map CsmaChannel.m_deviceList =
        some [⟨0, SubIface.rx⟩, ⟨1, SubIface.tx⟩] := by
  have h := attach_cross_wires (World.boot 0) 0 0 ⟨none, none⟩ 0 1
    (EthernetChannel.createObject_channel_eq 0 ⟨none, none⟩) (by decide)
  obtain ⟨w1, w2, h1, h2⟩ := h.1 (by decide) rfl rfl
  obtain ⟨_, _, _, t0, _, _, r1, ha, hb⟩ := h.2 w1 w2 h1 h2
  exact ⟨w1, w2, h1, h2, t0, r1, ha, hb⟩

/-- C4.  On every link that still owns its two sub-links, `SetDataRate (R)` returns true,
after which `GetDataRate ()` returns R and both sub-links report the attribute "DataRate" as
R; likewise `SetDelay (D)` returns true, after which `GetDelay ()` returns D and both
sub-links report the attribute "Delay" as D. -/
theorem setDataRate_setDelay_propagate (c : EthernetChannel) (hlive : c.isLive = true)
    (R : DataRate) (D : Time) :
    (∃ c1, c.SetDataRate R = Except.ok (true, c1) ∧ c1.GetDataRate = R ∧
      c1.subLinkAttribute SubLink.chan0 "DataRate" = Except.ok (AttributeValue.dataRate R) ∧
      c1.subLinkAttribute SubLink.chan1 "DataRate" = Except.ok (AttributeValue.dataRate R)) ∧
    (∃ c2, c.SetDelay D = Except.ok (true, c2) ∧ c2.GetDelay = D ∧
      c2.subLinkAttribute SubLink.chan0 "Delay" = Except.ok (AttributeValue.time D) ∧
      c2.subLinkAttribute SubLink.chan1 "Delay" = Except.ok (AttributeValue.time D)) := by
  obtain ⟨a, b, ha, hb⟩ := (EthernetChannel.channel_isLive_iff c).1 hlive
  constructor
  · refine ⟨{ c with m_bps := R, m_chan0 := some { a with m_bps := R },
                     m_chan1 := some { b with m_bps := R } }, ?_, rfl, ?_, ?_⟩
    · simp [EthernetChannel.SetDataRate, ha, hb, CsmaChannel.setAttribute_dataRate]
    · simp [EthernetChannel.subLinkAttribute, EthernetChannel.subLink, CsmaChannel.GetAttribute]
    · simp [EthernetChannel.subLinkAttribute, EthernetChannel.subLink, CsmaChannel.GetAttribute]
  · refine ⟨{ c with m_delay := D, m_chan0 := some { a with m_delay := D },
                     m_chan1 := some { b with m_delay := D } }, ?_, rfl, ?_, ?_⟩
    · simp [EthernetChannel.SetDelay, ha, hb, CsmaChannel.setAttribute_delay]
    · simp [EthernetChannel.subLinkAttribute, EthernetChannel.subLink, CsmaChannel.GetAttribute]
    · simp [EthernetChannel.subLinkAttribute, EthernetChannel.subLink, CsmaChannel.GetAttribute]

/-- C4, witness: on a link as its constructor leaves it, rate 100 and delay 5 are stored and
propagated. -/
theorem setDataRate_setDelay_propagate_witness :
    (EthernetChannel.ctor 0).isLive = true ∧
    (∃ c1, (EthernetChannel.ctor 0).SetDataRate 100 = Except.ok (true, c1) ∧ c1.GetDataRate = 100 ∧
      c1.subLinkAttribute SubLink.chan0 "DataRate" = Except.ok (AttributeValue.dataRate 100) ∧
      c1.subLinkAttribute SubLink.chan1 "DataRate" = Except.ok (AttributeValue.dataRate 100)) ∧
    (∃ c2, (EthernetChannel.ctor 0).SetDelay 5 = Except.ok (true, c2) ∧ c2.GetDelay = 5 ∧
      c2.subLinkAttribute SubLink.chan0 "Delay" = Except.ok (AttributeValue.time 5) ∧
      c2.subLinkAttribute SubLink.chan1 "Delay" = Except.ok (AttributeValue.time 5)) :=
  ⟨rfl, setDataRate_setDelay_propagate (EthernetChannel.ctor 0) rfl 100 5⟩

/-- C5.  In every state reached from the creation of a link by any sequence of `Attach`,
`SetDataRate` and `SetDelay` calls (the empty sequence included), sub-link A and sub-link B
hold the same data rate and the same delay, namely the ones `GetDataRate ()` and
`GetDelay ()` return. -/
theorem rate_delay_mirrored_on_reachable (w w1 : World) (L : ChanId) (garbage : Nat)
    (attrs : ChannelAttributes) (ops : List LinkOp)
    (hfresh : EthernetChannel.CreateObject garbage attrs = Except.ok (w.channels L))
    (hrun : runLinkOps w L ops = Except.ok w1) :
    (w1.channels L).m_chan0.map CsmaChannel.m_bps = some (w1.channels L).GetDataRate ∧
    (w1.channels L).m_chan1.map CsmaChannel.m_bps = some (w1.channels L).GetDataRate ∧
    (w1.channels L).m_chan0.map CsmaChannel.m_delay = some (w1.channels L).GetDelay ∧
    (w1.channels L).m_chan1.map CsmaChannel.m_delay = some (w1.channels L).GetDelay := by
  have hc := EthernetChannel.created_of_createObject _ _ _ hfresh
  have hm : (w.channels L).Mirrored := by
    rw [hc]
    exact EthernetChannel.created_mirrored garbage attrs
  exact runLinkOps_mirrored L ops w w1 hm hrun

/-- C5, witness: a run that attaches two endpoints and changes rate and delay in between. -/
theorem rate_delay_mirrored_on_reachable_witness :
    ∃ w1, runLinkOps (World.boot 0) 0 [LinkOp.attach (some 0), LinkOp.setDataRate 100,
        LinkOp.attach (some 1), LinkOp.setDelay 7] = Except.ok w1 ∧
      (w1.channels 0).m_chan0.map CsmaChannel.m_bps = some (w1.channels 0).GetDataRate ∧
      (w1.channels 0).m_chan1.map CsmaChannel.m_bps = some (w1.channels 0).GetDataRate ∧
      (w1.channels 0).m_chan0.map CsmaChannel.m_delay = some (w1.channels 0).GetDelay ∧
      (w1.channels 0).m_chan1.map CsmaChannel.m_delay = some (w1.channels 0).GetDelay := by
  obtain ⟨w1, h⟩ := ok_of_toBool (runLinkOps (World.boot 0) 0 [LinkOp.attach (some 0),
    LinkOp.setDataRate 100, LinkOp.attach (some 1), LinkOp.setDelay 7]) rfl
  exact ⟨w1, h, rate_delay_mirrored_on_reachable (World.boot 0) w1 0 0 ⟨none, none⟩ _
    (EthernetChannel.createObject_channel_eq 0 ⟨none, none⟩) h⟩

/-- C6, counterexample.  On a freshly created link without any endpoint, `GetDevice (0)` and
`GetEthernetDevice (0)` are not rejected: they return the null pointer; and on the link with
one endpoint attached, so are `GetDevice (1)` and `GetEthernetDevice (1)`. -/
theorem getDevice_beyond_count_not_fatal :
    EthernetChannel.CreateObject 0 ⟨none, none⟩ = Except.ok ((World.boot 0).channels 0) ∧
    ((World.boot 0).channels 0).GetNDevices = 0 ∧
    ((World.boot 0).channels 0).GetDevice 0 = Except.ok none ∧
    ((World.boot 0).channels 0).GetEthernetDevice 0 = Except.ok none ∧
    ∃ w1, EthernetChannel.Attach (World.boot 0) 0 (some 7) = Except.ok w1 ∧
      (w1.channels 0).GetNDevices = 1 ∧ (w1.channels 0).GetDevice 1 = Except.ok none ∧
      (w1.channels 0).GetEthernetDevice 1 = Except.ok none := by
  refine ⟨EthernetChannel.createObject_channel_eq _ _, rfl, rfl, rfl, _,
    EthernetChannel.attach_first (World.boot 0) 0 7 rfl, rfl, rfl, rfl⟩

/-- C6, amended.  On every link reached from its creation by successfully attaching the
endpoints `es` in order, there are at most two of them, and for every index i both
`GetDevice (i)` and `GetEthernetDevice (i)` return the i-th attached endpoint when i is below
their number, return the null pointer when i is not below their number but below 2, and fail
the assertion when i is 2 or more. -/
theorem getDevice_guarded_by_capacity (w w1 : World) (L : ChanId) (garbage : Nat)
    (attrs : ChannelAttributes) (es : List DevId)
    (hfresh : EthernetChannel.CreateObject garbage attrs = Except.ok (w.channels L))
    (hrun : attachAll w L (es.map some) = Except.ok w1) (i : Nat) :
    es.length ≤ 2 ∧
    (es ≠ [] → (w1.channels L).GetNDevices = es.length) ∧
    (w1.channels L).GetDevice i = (w1.channels L).GetEthernetDevice i ∧
    (∀ h : i < es.length, (w1.channels L).GetDevice i = Except.ok (some (es.get ⟨i, h⟩))) ∧
    (es.length ≤ i → i < 2 → (w1.channels L).GetDevice i = Except.ok none) ∧
    (2 ≤ i → (w1.channels L).GetDevice i = Except.error Fatal.assertion) := by
  have hc := EthernetChannel.created_of_createObject _ _ _ hfresh
  have hempty : ∀ j, (w.channels L).m_devices j = none := by
    intro j; rw [hc]; rfl
  obtain ⟨hlen, hslots, hcount⟩ := attachAll_slots w w1 L es hempty hrun
  refine ⟨hlen, hcount, rfl, fun h => ?_, fun h1 h2 => ?_, fun h => ?_⟩
  · have h2 : i < 2 := by omega
    simp [EthernetChannel.GetDevice, EthernetChannel.GetEthernetDevice, h2, hslots,
      List.getElem?_eq_getElem h]
  · simp [EthernetChannel.GetDevice, EthernetChannel.GetEthernetDevice, h2, hslots,
      List.getElem?_eq_none h1]
  · have h2 : ¬ i < 2 := by omega
    simp [EthernetChannel.GetDevice, EthernetChannel.GetEthernetDevice, h2]

/-- C6, witness: with endpoints 3 and 5 attached, index 1 yields endpoint 5 and index 2 is
rejected. -/
theorem getDevice_guarded_by_capacity_witness :
    ∃ w1, attachAll (World.boot 0) 0 ([3, 5].map some) = Except.ok w1 ∧
      (w1.channels 0).GetNDevices = 2 ∧
      (w1.channels 0).GetDevice 1 = Except.ok (some 5) ∧
      (w1.channels 0).GetDevice 2 = Except.error Fatal.assertion := by
  obtain ⟨w1, h⟩ := ok_of_toBool (attachAll (World.boot 0) 0 ([3, 5].map some)) rfl
  have h1 := getDevice_guarded_by_capacity (World.boot 0) w1 0 0 ⟨none, none⟩ [3, 5]
    (EthernetChannel.createObject_channel_eq 0 ⟨none, none⟩) h 1
  have h2 := getDevice_guarded_by_capacity (World.boot 0) w1 0 0 ⟨none, none⟩ [3, 5]
    (EthernetChannel.createObject_channel_eq 0 ⟨none, none⟩) h 2
  exact ⟨w1, h, h1.2.1 (by simp), h1.2.2.2.1 (by simp), h2.2.2.2.2.2 (by simp)⟩

/-- C7.  On every endpoint that still owns its interfaces and for every MAC address mac,
`SetAddress (mac)` succeeds, `SetMac48Address (mac)` returns true with the same effect, and
afterwards `GetAddress ()` and `GetMac48Address ()` return mac, the address of the tx
interface is mac, and every frame the endpoint hands over through `Send` carries mac as its
source address. -/
theorem setAddress_visible_and_used_as_source (d : EthernetNetDevice)
    (hlive : d.isLive = true) (mac : Mac48Address) :
    ∃ d1, d.SetAddress mac.ConvertTo = Except.ok d1 ∧
      d.SetMac48Address mac = Except.ok (true, d1) ∧
      d1.GetAddress = mac.ConvertTo ∧ d1.GetMac48Address = mac ∧
      d1.GetTxDevice.map CsmaNetDevice.m_address = some mac ∧
      ∀ (P : SendPolicy) (w : World) (E : DevId), w.devices E = d1 →
        ∀ (packet : Packet) (dest : Address) (protocolNumber : Nat),
          ∃ r, EthernetNetDevice.Send P w E packet dest protocolNumber = Except.ok (r, { w with
            trace := w.trace ++ [Event.frameOffered ⟨E, SubIface.tx⟩
              ⟨packet, mac.ConvertTo, dest, protocolNumber⟩ r] }) := by
  obtain ⟨tx, rx, htx, hrx⟩ := (EthernetNetDevice.device_isLive_iff d).1 hlive
  refine ⟨_, EthernetNetDevice.setAddress_eq d tx rx htx hrx mac,
    EthernetNetDevice.setMac48Address_eq d tx rx htx hrx mac, rfl, rfl, rfl, ?_⟩
  intro P w E hE packet dest protocolNumber
  refine ⟨P w ⟨E, SubIface.tx⟩ ⟨packet, mac.ConvertTo, dest, protocolNumber⟩, ?_⟩
  simp [EthernetNetDevice.Send, hE, CsmaNetDevice.Send, CsmaNetDevice.SendFrom]

/-- C7, witness: a freshly created endpoint is given the address 00:00:00:00:00:01. -/
theorem setAddress_visible_and_used_as_source_witness :
    (EthernetNetDevice.created 0).isLive = true ∧
    ∃ d1, (EthernetNetDevice.created 0).SetAddress (Mac48Address.ConvertTo ⟨1⟩) = Except.ok d1 ∧
      d1.GetAddress = Mac48Address.ConvertTo ⟨1⟩ ∧
      d1.GetTxDevice.map CsmaNetDevice.m_address = some ⟨1⟩ := by
  obtain ⟨d1, h1, _, h3, _, h5, _⟩ :=
    setAddress_visible_and_used_as_source (EthernetNetDevice.created 0) rfl ⟨1⟩
  exact ⟨rfl, d1, h1, h3, h5⟩

/-- C8, counterexample.  `SetAddress` does not leave the rx interface alone: on a freshly
created endpoint, whose rx interface has the address ff:ff:ff:ff:ff:ff, setting the address
00:00:00:00:00:01 changes the address of the rx interface to 00:00:00:00:00:01. -/
theorem setAddress_changes_rx_interface :
    ∃ d0 d1, EthernetNetDevice.CreateObject 0 0 = Except.ok d0 ∧
      d0.SetAddress (Mac48Address.ConvertTo ⟨1⟩) = Except.ok d1 ∧
      d0.GetRxDevice.map CsmaNetDevice.m_address = some Mac48Address.broadcast ∧
      d1.GetRxDevice.map CsmaNetDevice.m_address = some ⟨1⟩ ∧
      d1.GetRxDevice ≠ d0.GetRxDevice := by
  refine ⟨_, _, EthernetNetDevice.createObject_device_eq 0 0,
    EthernetNetDevice.setAddress_eq (EthernetNetDevice.created 0) CsmaNetDevice.fresh
      CsmaNetDevice.fresh rfl rfl ⟨1⟩, rfl, rfl, ?_⟩
  decide

/-- C8, amended.  On every endpoint that owns its interfaces, each of `SetAddress`, `SetMtu`
and `SetEncapsulationMode` stores its value locally (the matching getter returns it) and sets
it on the tx interface, changing nothing else of the tx interface; `SetMtu` and
`SetEncapsulationMode` leave the rx interface unchanged, while `SetAddress` sets the address
of the rx interface as well and leaves its MTU and encapsulation mode unchanged. -/
theorem setters_store_and_mirror (d : EthernetNetDevice) (tx rx : CsmaNetDevice)
    (htx : d.GetTxDevice = some tx) (hrx : d.GetRxDevice = some rx) :
    (∀ mac : Mac48Address, ∃ d1, d.SetAddress mac.ConvertTo = Except.ok d1 ∧
      d1.GetAddress = mac.ConvertTo ∧
      d1.GetTxDevice = some { tx with m_address := mac } ∧
      d1.GetRxDevice = some { rx with m_address := mac }) ∧
    (∀ mtu : Nat, mtu < 2 ^ 16 → ∃ d1, d.SetMtu mtu = Except.ok (true, d1) ∧
      d1.GetMtu = mtu ∧
      d1.GetTxDevice = some { tx with m_mtu := mtu } ∧
      d1.GetRxDevice = some rx) ∧
    (∀ mode : EncapsulationMode, ∃ d1, d.SetEncapsulationMode mode = Except.ok d1 ∧
      d1.GetEncapsulationMode = mode ∧
      d1.GetTxDevice = some { tx with m_encapMode := mode } ∧
      d1.GetRxDevice = some rx) := by
  refine ⟨fun mac => ⟨_, EthernetNetDevice.setAddress_eq d tx rx htx hrx mac, rfl, rfl, rfl⟩,
    fun mtu hmtu => ⟨_, EthernetNetDevice.setMtu_eq d tx htx mtu hmtu, ?_, rfl, hrx⟩,
    fun mode => ⟨_, EthernetNetDevice.setEncapsulationMode_eq d tx htx mode, rfl, rfl, hrx⟩⟩
  have hm : mtu < 65536 := by simpa using hmtu
  simp [EthernetNetDevice.GetMtu, Nat.mod_eq_of_lt hm]

/-- C8, witness: the three setters on a freshly created endpoint. -/
theorem setters_store_and_mirror_witness :
    (∃ d1, (EthernetNetDevice.created 0).SetMtu 9000 = Except.ok (true, d1) ∧ d1.GetMtu = 9000 ∧
      d1.GetTxDevice = some { CsmaNetDevice.fresh with m_mtu := 9000 } ∧
      d1.GetRxDevice = some CsmaNetDevice.fresh) ∧
    (∃ d1, (EthernetNetDevice.created 0).SetEncapsulationMode EncapsulationMode.LLC = Except.ok d1 ∧
      d1.GetEncapsulationMode = EncapsulationMode.LLC ∧
      d1.GetTxDevice = some { CsmaNetDevice.fresh with m_encapMode := EncapsulationMode.LLC } ∧
      d1.GetRxDevice = some CsmaNetDevice.fresh) ∧
    (∃ d1, (EthernetNetDevice.created 0).SetAddress (Mac48Address.ConvertTo ⟨2⟩) = Except.ok d1 ∧
      d1.GetAddress = Mac48Address.ConvertTo ⟨2⟩ ∧
      d1.GetTxDevice = some { CsmaNetDevice.fresh with m_address := ⟨2⟩ } ∧
      d1.GetRxDevice = some { CsmaNetDevice.fresh with m_address := ⟨2⟩ }) := by
  have h := setters_store_and_mirror (EthernetNetDevice.created 0) CsmaNetDevice.fresh
    CsmaNetDevice.fresh rfl rfl
  exact ⟨h.2.1 9000 (by decide), h.2.2 EncapsulationMode.LLC, h.1 ⟨2⟩⟩

/-- C10.  On every endpoint that owns its tx interface, `Send` returns exactly what `Send` of
the tx interface returns and `SendFrom` exactly what `SendFrom` of the tx interface returns,
called once with the same arguments, a false result included; the only effect is that one
call on the tx interface: no object changes state and nothing involves the rx interface. -/
theorem send_delegates_to_tx (P : SendPolicy) (w : World) (E : DevId) (tx : CsmaNetDevice)
    (htx : (w.devices E).GetTxDevice = some tx) (packet : Packet) (src dest : Address)
    (protocolNumber : Nat) :
    EthernetNetDevice.Send P w E packet dest protocolNumber =
      Except.ok (CsmaNetDevice.Send P w ⟨E, SubIface.tx⟩ tx packet dest protocolNumber) ∧
    EthernetNetDevice.SendFrom P w E packet src dest protocolNumber =
      Except.ok (CsmaNetDevice.SendFrom P w ⟨E, SubIface.tx⟩ packet src dest protocolNumber) ∧
    (∀ r w1, EthernetNetDevice.Send P w E packet dest protocolNumber = Except.ok (r, w1) →
      w1.toHeap = w.toHeap ∧
      ∃ frame, w1.trace = w.trace ++ [Event.frameOffered ⟨E, SubIface.tx⟩ frame r] ∧
        frame.packet = packet ∧ frame.destination = dest ∧
        frame.protocolNumber = protocolNumber ∧
        r = P w ⟨E, SubIface.tx⟩ frame) ∧
    (∀ r w1, EthernetNetDevice.SendFrom P w E packet src dest protocolNumber = Except.ok (r, w1) →
      w1.toHeap = w.toHeap ∧
      w1.trace = w.trace ++
        [Event.frameOffered ⟨E, SubIface.tx⟩ ⟨packet, src, dest, protocolNumber⟩ r] ∧
      r = P w ⟨E, SubIface.tx⟩ ⟨packet, src, dest, protocolNumber⟩) := by
  have htx1 : (w.devices E).m_txDev = some tx := htx
  have hs : EthernetNetDevice.Send P w E packet dest protocolNumber =
      Except.ok (CsmaNetDevice.Send P w ⟨E, SubIface.tx⟩ tx packet dest protocolNumber) := by
    simp [EthernetNetDevice.Send, htx1]
  have hsf : EthernetNetDevice.SendFrom P w E packet src dest protocolNumber =
      Except.ok (CsmaNetDevice.SendFrom P w ⟨E, SubIface.tx⟩ packet src dest protocolNumber) := by
    simp [EthernetNetDevice.SendFrom, htx1]
  refine ⟨hs, hsf, ?_, ?_⟩
  · intro r w1 h
    rw [hs] at h
    have e := Except.ok.inj h
    simp only [CsmaNetDevice.Send, CsmaNetDevice.SendFrom, Prod.mk.injEq] at e
    obtain ⟨hr, hw⟩ := e
    subst hw
    exact ⟨rfl, ⟨packet, tx.m_address.ConvertTo, dest, protocolNumber⟩, by rw [hr], rfl, rfl,
      rfl, hr.symm⟩
  · intro r w1 h
    rw [hsf] at h
    have e := Except.ok.inj h
    simp only [CsmaNetDevice.SendFrom, Prod.mk.injEq] at e
    obtain ⟨hr, hw⟩ := e
    subst hw
    exact ⟨rfl, by rw [hr], hr.symm⟩

/-- C10, witness: an interface that refuses every frame; the refusal is what `Send` and
`SendFrom` of the endpoint return. -/
theorem send_delegates_to_tx_witness :
    EthernetNetDevice.Send (fun _ _ _ => false) (World.boot 0) 0 [1, 2, 3]
        (Mac48Address.ConvertTo ⟨2⟩) 2048 =
      Except.ok (CsmaNetDevice.Send (fun _ _ _ => false) (World.boot 0) ⟨0, SubIface.tx⟩
        CsmaNetDevice.fresh [1, 2, 3] (Mac48Address.ConvertTo ⟨2⟩) 2048) ∧
    (EthernetNetDevice.SendFrom (fun _ _ _ => false) (World.boot 0) 0 [1, 2, 3]
        (Mac48Address.ConvertTo ⟨1⟩) (Mac48Address.ConvertTo ⟨2⟩) 2048).map Prod.fst =
      Except.ok false := by
  have h := send_delegates_to_tx (fun _ _ _ => false) (World.boot 0) 0 CsmaNetDevice.fresh rfl
    [1, 2, 3] (Mac48Address.ConvertTo ⟨1⟩) (Mac48Address.ConvertTo ⟨2⟩) 2048
  refine ⟨h.1, ?_⟩
  rw [h.2.1]
  rfl

/-- C16.  On every freshly created link, whatever endpoints are attached: a successful first
attach attaches no interface to any sub-link of any link and changes no endpoint; a
successful second attach appends exactly two interfaces to each of the two sub-links of the
link, four attachments in all, and touches no other link; and every later attach is rejected
by the assertion, so that it attaches nothing.  The two attaches do succeed when the counter
of the fresh link reads zero and both endpoints own their interfaces. -/
theorem cross_wiring_happens_once (w : World) (L : ChanId) (garbage : Nat)
    (attrs : ChannelAttributes)
    (hfresh : EthernetChannel.CreateObject garbage attrs = Except.ok (w.channels L)) :
    (∀ E0 w1, EthernetChannel.Attach w L (some E0) = Except.ok w1 →
      w1.devices = w.devices ∧
      (∀ c, (w1.channels c).m_chan0 = (w.channels c).m_chan0 ∧
        (w1.channels c).m_chan1 = (w.channels c).m_chan1) ∧
      (w1.channels L).m_chan0.map CsmaChannel.m_deviceList = some [] ∧
      (w1.channels L).m_chan1.map CsmaChannel.m_deviceList = some [] ∧
      ∀ E1 w2, EthernetChannel.Attach w1 L (some E1) = Except.ok w2 →
        (w2.channels L).m_chan0.map CsmaChannel.m_deviceList =
          some [⟨E0, SubIface.tx⟩, ⟨E1, SubIface.rx⟩] ∧
        (w2.channels L).m_chan1.map CsmaChannel.m_deviceList =
          some [⟨E0, SubIface.rx⟩, ⟨E1, SubIface.tx⟩] ∧
        (∀ c, c ≠ L → w2.channels c = w1.channels c) ∧
        ∀ dev, EthernetChannel.Attach w2 L dev = Except.error Fatal.assertion) ∧
    (garbage % 2 ^ 32 = 0 → ∀ E0 E1, (w.devices E0).isLive = true →
      (w.devices E1).isLive = true →
      ∃ w1 w2, EthernetChannel.Attach w L (some E0) = Except.ok w1 ∧
        EthernetChannel.Attach w1 L (some E1) = Except.ok w2) := by
  have hc := EthernetChannel.created_of_createObject _ _ _ hfresh
  have hempty : (w.channels L).m_devices 0 = none := by rw [hc]; rfl
  have hl0 : (w.channels L).m_chan0.map CsmaChannel.m_deviceList = some [] := by rw [hc]; rfl
  have hl1 : (w.channels L).m_chan1.map CsmaChannel.m_deviceList = some [] := by rw [hc]; rfl
  constructor
  · intro E0 w1 h1
    have hn0 := EthernetChannel.attach_empty_counter w w1 L E0 hempty h1
    rw [EthernetChannel.attach_first w L E0 hn0] at h1
    have e1 := (Except.ok.inj h1).symm
    subst e1
    refine ⟨rfl, fun c => ?_, by simpa using hl0, by simpa using hl1, ?_⟩
    · by_cases hcl : c = L
      · subst hcl; simp
      · simp [Function.update_noteq hcl]
    · intro E1 w2 h2
      obtain ⟨a, b, ha, hb, ha2, hb2, _, _, _, hcount⟩ :=
        EthernetChannel.attach_second_inv _ w2 L E0 E1 (by simp) (by simp) h2
      have hal : a.m_deviceList = [] := by
        have : (some a).map CsmaChannel.m_deviceList = some [] := by
          rw [← ha]; simpa using hl0
        simpa using this
      have hbl : b.m_deviceList = [] := by
        have : (some b).map CsmaChannel.m_deviceList = some [] := by
          rw [← hb]; simpa using hl1
        simpa using this
      refine ⟨by simp [ha2, hal], by simp [hb2, hbl],
        fun c hcl => EthernetChannel.attach_other_channels _ w2 L _ h2 c hcl,
        fun dev => EthernetChannel.attach_full w2 L dev (by omega)⟩
  · intro hg E0 E1 hE0 hE1
    have hn : (w.channels L).m_nDevices = 0 := by rw [hc]; exact hg
    have hL : (w.channels L).isLive = true := by rw [hc]; rfl
    obtain ⟨w1, w2, h1, _, h2, _, _⟩ :=
      EthernetChannel.attach_sequence_from_zero w L E0 E1 none hn hL hE0 hE1
    exact ⟨w1, w2, h1, h2⟩

/-- C16, witness: endpoints 4 and 9 on a link created with a zero counter; a third attach
is rejected. -/
theorem cross_wiring_happens_once_witness :
    ∃ w1 w2, EthernetChannel.Attach (World.boot 0) 0 (some 4) = Except.ok w1 ∧
      (w1.channels 0).m_chan0.map CsmaChannel.m_deviceList = some [] ∧
      (w1.channels 0).m_chan1.map CsmaChannel.m_deviceList = some [] ∧
      EthernetChannel.Attach w1 0 (some 9) = Except.ok w2 ∧
      (w2.channels 0).m_chan0.map CsmaChannel.m_deviceList =
        some [⟨4, SubIface.tx⟩, ⟨9, SubIface.rx⟩] ∧
      (w2.channels 0).m_chan1.map CsmaChannel.m_deviceList =
        some [⟨4, SubIface.rx⟩, ⟨9, SubIface.tx⟩] ∧
      EthernetChannel.Attach w2 0 (some 5) = Except.error Fatal.assertion := by
  have h := cross_wiring_happens_once (World.boot 0) 0 0 ⟨none, none⟩
    (EthernetChannel.createObject_channel_eq 0 ⟨none, none⟩)
  obtain ⟨w1, w2, h1, h2⟩ := h.2 (by decide) 4 9 rfl rfl
  obtain ⟨_, _, ha, hb, hrest⟩ := h.1 4 w1 h1
  obtain ⟨ha2, hb2, _, hlater⟩ := hrest 9 w2 h2
  exact ⟨w1, w2, h1, ha, hb, h2, ha2, hb2, hlater (some 5)⟩

/-- C19, the code at the failing input.  The constructor never writes `m_nDevices` (the
defect of C1).  When the storage it occupies holds 2, the first attach of the endpoint 3, which
owns both its interfaces, to the freshly created link 0 trips the assertion
`m_nDevices < N_DEVICES`, through `EthernetChannel::Attach` as well as through
`EthernetNetDevice::Attach`: nothing is attached, let alone twice.  On the freshly created
link whose counter happens to read 0 the same attach, made twice, succeeds both times and
leaves the endpoint in both slots and wired to itself. -/
theorem duplicate_attach_fatal_on_fresh_link :
    EthernetChannel.CreateObject 2 ⟨none, none⟩ = Except.ok ((World.boot 2).channels 0) ∧
    ((World.boot 2).devices 3).isLive = true ∧
    EthernetChannel.Attach (World.boot 2) 0 (some 3) = Except.error Fatal.assertion ∧
    EthernetNetDevice.Attach (World.boot 2) 3 (some 0) = Except.error Fatal.assertion ∧
    EthernetChannel.CreateObject 0 ⟨none, none⟩ = Except.ok ((World.boot 0).channels 0) ∧
    ∃ w1 w2, EthernetChannel.Attach (World.boot 0) 0 (some 3) = Except.ok w1 ∧
      EthernetChannel.Attach w1 0 (some 3) = Except.ok w2 ∧ SelfWired w2 0 3 := by
  refine ⟨EthernetChannel.createObject_channel_eq _ _, rfl,
    EthernetChannel.attach_full _ _ _ (by decide), ?_,
    EthernetChannel.createObject_channel_eq _ _, ?_⟩
  · have hfull : EthernetChannel.Attach
        ((World.boot 2).setDevice 3 { (World.boot 2).devices 3 with m_channel := some 0 }) 0
        (some 3) = Except.error Fatal.assertion :=
      EthernetChannel.attach_full _ _ _ (by decide)
    simp only [EthernetNetDevice.Attach, Option.isSome_some, NS_ASSERT_true, ok_bind]
    have hd : (((World.boot 2).setDevice 3
        { (World.boot 2).devices 3 with m_channel := some 0 }).devices 3).m_channel = some 0 := by
      simp [World.setDevice]
    rw [hd]
    simp only [deref_some, ok_bind, hfull, error_bind]
  · have h := EthernetChannel.duplicate_attach_self_wired (World.boot 0) 0 0 ⟨none, none⟩ 3
      (EthernetChannel.createObject_channel_eq 0 ⟨none, none⟩)
    obtain ⟨w1, w2, h1, h2⟩ := (h.2.2 (by decide) rfl).1
    exact ⟨w1, w2, h1, h2, h.1 w1 w2 h1 h2⟩

/-- C11.  For every endpoint E whose registered receive callback is the non-null cb: with
whatever sub-interface, packet, protocol and sender the internal handler
`NonPromiscReceiveFromDevice` is invoked, it invokes cb exactly once, with E itself as the
device and the packet, protocol and sender unchanged, and returns the result of cb; likewise
`PromiscReceiveFromDevice` with the registered promiscuous callback pcb, the receiver and the
packet type being passed on unchanged as well.  After a registration of a non-null callback,
whatever was registered before, the registered callback is that one, and a delivery by the rx
interface goes through the internal handler of E. -/
theorem receive_callback_indirection (U : UpperLayer) (w : World) (E : DevId) :
    (∀ cb, (w.devices E).m_rxCallback = some cb →
      ∀ device packet protocol sender,
        EthernetNetDevice.NonPromiscReceiveFromDevice U w E device packet protocol sender =
          Except.ok (U.receive w cb (NetDeviceRef.ethernet E) packet protocol sender,
            { w with trace := w.trace ++ [Event.receive cb (NetDeviceRef.ethernet E) packet
              protocol sender (U.receive w cb (NetDeviceRef.ethernet E) packet protocol sender)] })) ∧
    (∀ pcb, (w.devices E).m_promiscRxCallback = some pcb →
      ∀ device packet protocol sender receiver packetType,
        EthernetNetDevice.PromiscReceiveFromDevice U w E device packet protocol sender receiver
            packetType =
          Except.ok (U.promiscReceive w pcb (NetDeviceRef.ethernet E) packet protocol sender
              receiver packetType,
            { w with trace := w.trace ++ [Event.promiscReceive pcb (NetDeviceRef.ethernet E)
              packet protocol sender receiver packetType
              (U.promiscReceive w pcb (NetDeviceRef.ethernet E) packet protocol sender receiver
                packetType)] })) ∧
    (∀ cb w1, EthernetNetDevice.SetReceiveCallback w E (some cb) = Except.ok w1 →
      (w1.devices E).m_rxCallback = some cb ∧
      ∀ packet protocol sender,
        CsmaNetDevice.ForwardUp U w1 ⟨E, SubIface.rx⟩ packet protocol sender =
          EthernetNetDevice.NonPromiscReceiveFromDevice U w1 E
            (some (NetDeviceRef.csma ⟨E, SubIface.rx⟩)) packet protocol sender) ∧
    (∀ pcb w1, EthernetNetDevice.SetPromiscReceiveCallback w E (some pcb) = Except.ok w1 →
      (w1.devices E).m_promiscRxCallback = some pcb ∧
      ∀ packet protocol sender receiver packetType,
        CsmaNetDevice.PromiscForwardUp U w1 ⟨E, SubIface.rx⟩ packet protocol sender receiver
            packetType =
          EthernetNetDevice.PromiscReceiveFromDevice U w1 E
            (some (NetDeviceRef.csma ⟨E, SubIface.rx⟩)) packet protocol sender receiver
            packetType) := by
  refine ⟨?_, ?_, ?_, ?_⟩
  · intro cb hcb device packet protocol sender
    simp [EthernetNetDevice.NonPromiscReceiveFromDevice, hcb, invokeReceive]
  · intro pcb hpcb device packet protocol sender receiver packetType
    simp [EthernetNetDevice.PromiscReceiveFromDevice, hpcb, invokePromiscReceive]
  · intro cb w1 h
    obtain ⟨rx, hrx, rfl⟩ := EthernetNetDevice.setReceiveCallback_inv w w1 E cb h
    refine ⟨by simp [World.setDevice], ?_⟩
    intro packet protocol sender
    simp [CsmaNetDevice.ForwardUp, World.setDevice, EthernetNetDevice.iface,
      EthernetNetDevice.GetRxDevice]
  · intro pcb w1 h
    obtain ⟨rx, hrx, rfl⟩ := EthernetNetDevice.setPromiscReceiveCallback_inv w w1 E pcb h
    refine ⟨by simp [World.setDevice], ?_⟩
    intro packet protocol sender receiver packetType
    simp [CsmaNetDevice.PromiscForwardUp, World.setDevice, EthernetNetDevice.iface,
      EthernetNetDevice.GetRxDevice]

/-- C11, witness: callback 42 is registered on endpoint 0 and answers true; the handler,
invoked for the tx interface of all things, reports endpoint 0. -/
theorem receive_callback_indirection_witness :
    ∃ w1 w2, EthernetNetDevice.SetReceiveCallback (World.boot 0) 0 (some 42) = Except.ok w1 ∧
      EthernetNetDevice.NonPromiscReceiveFromDevice
        ⟨fun _ _ _ _ _ _ => true, fun _ _ _ _ _ _ _ _ => false⟩ w1 0
        (some (NetDeviceRef.csma ⟨0, SubIface.tx⟩)) [1, 2] 2048 (Mac48Address.ConvertTo ⟨7⟩) =
        Except.ok (true, w2) ∧
      w2.trace = [Event.receive 42 (NetDeviceRef.ethernet 0) [1, 2] 2048
        (Mac48Address.ConvertTo ⟨7⟩) true] := by
  have h1 := EthernetNetDevice.setReceiveCallback_some (World.boot 0) 0 CsmaNetDevice.fresh rfl 42
  have hreg := (receive_callback_indirection ⟨fun _ _ _ _ _ _ => true, fun _ _ _ _ _ _ _ _ => false⟩
    (World.boot 0) 0).2.2.1 42 _ h1
  have hcall := (receive_callback_indirection
    ⟨fun _ _ _ _ _ _ => true, fun _ _ _ _ _ _ _ _ => false⟩ _ 0).1 42 hreg.1
    (some (NetDeviceRef.csma ⟨0, SubIface.tx⟩)) [1, 2] 2048 (Mac48Address.ConvertTo ⟨7⟩)
  exact ⟨_, _, h1, hcall, rfl⟩

/-- C12.  On every endpoint E that owns its rx interface: `SetReceiveCallback` of the null
callback stores it and installs the null callback itself on the rx interface, and of a
non-null callback stores it and installs the bound handler `NonPromiscReceiveFromDevice` of
E on the rx interface; `SetPromiscReceiveCallback` does the same with the promiscuous
callback and the bound handler `PromiscReceiveFromDevice`.  In all four cases nothing else
changes: the tx interface is left as it was, and a registration of one kind leaves the
callback of the other kind alone, on the endpoint and on the rx interface. -/
theorem receive_callback_installation (w : World) (E : DevId) (rx : CsmaNetDevice)
    (hrx : (w.devices E).GetRxDevice = some rx) :
    EthernetNetDevice.SetReceiveCallback w E none = Except.ok (w.setDevice E
      { w.devices E with
        m_rxCallback := none
        m_rxDev := some { rx with m_rxCallback := ReceiveCallback.null } }) ∧
    (∀ cb, EthernetNetDevice.SetReceiveCallback w E (some cb) = Except.ok (w.setDevice E
      { w.devices E with
        m_rxCallback := some cb
        m_rxDev := some { rx with
          m_rxCallback := ReceiveCallback.NonPromiscReceiveFromDevice E } })) ∧
    EthernetNetDevice.SetPromiscReceiveCallback w E none = Except.ok (w.setDevice E
      { w.devices E with
        m_promiscRxCallback := none
        m_rxDev := some { rx with m_promiscRxCallback := PromiscReceiveCallback.null } }) ∧
    (∀ cb, EthernetNetDevice.SetPromiscReceiveCallback w E (some cb) = Except.ok (w.setDevice E
      { w.devices E with
        m_promiscRxCallback := some cb
        m_rxDev := some { rx with
          m_promiscRxCallback := PromiscReceiveCallback.PromiscReceiveFromDevice E } })) :=
  ⟨EthernetNetDevice.setReceiveCallback_null w E rx hrx,
    EthernetNetDevice.setReceiveCallback_some w E rx hrx,
    EthernetNetDevice.setPromiscReceiveCallback_null w E rx hrx,
    EthernetNetDevice.setPromiscReceiveCallback_some w E rx hrx⟩

/-- C12, witness: on a freshly created endpoint, a promiscuous callback is registered, then a
receive callback, then the receive callback is cleared; the tx interface never holds a
callback and the promiscuous registration survives. -/
theorem receive_callback_installation_witness :
    ∃ w1 w2 w3, EthernetNetDevice.SetPromiscReceiveCallback (World.boot 0) 0 (some 8) =
        Except.ok w1 ∧
      EthernetNetDevice.SetReceiveCallback w1 0 (some 9) = Except.ok w2 ∧
      EthernetNetDevice.SetReceiveCallback w2 0 none = Except.ok w3 ∧
      (w2.devices 0).GetRxDevice.map CsmaNetDevice.m_rxCallback =
        some (ReceiveCallback.NonPromiscReceiveFromDevice 0) ∧
      (w3.devices 0).GetRxDevice.map CsmaNetDevice.m_rxCallback = some ReceiveCallback.null ∧
      (w3.devices 0).GetRxDevice.map CsmaNetDevice.m_promiscRxCallback =
        some (PromiscReceiveCallback.PromiscReceiveFromDevice 0) ∧
      (w3.devices 0).m_promiscRxCallback = some 8 ∧
      (w3.devices 0).GetTxDevice = some CsmaNetDevice.fresh := by
  obtain ⟨w1, h1, hrx1, hp1, htx1⟩ : ∃ w1,
      EthernetNetDevice.SetPromiscReceiveCallback (World.boot 0) 0 (some 8) = Except.ok w1 ∧
      (w1.devices 0).GetRxDevice = some { CsmaNetDevice.fresh with
        m_promiscRxCallback := PromiscReceiveCallback.PromiscReceiveFromDevice 0 } ∧
      (w1.devices 0).m_promiscRxCallback = some 8 ∧
      (w1.devices 0).GetTxDevice = some CsmaNetDevice.fresh :=
    ⟨_, (receive_callback_installation (World.boot 0) 0 CsmaNetDevice.fresh rfl).2.2.2 8,
      rfl, rfl, rfl⟩
  have h2 := (receive_callback_installation w1 0 _ hrx1).2.1 9
  have h3 := (receive_callback_installation _ 0 _
    (by simp [World.setDevice, EthernetNetDevice.GetRxDevice] :
      (((w1.setDevice 0 { w1.devices 0 with
        m_rxCallback := some 9
        m_rxDev := some { ({ CsmaNetDevice.fresh with
            m_promiscRxCallback := PromiscReceiveCallback.PromiscReceiveFromDevice 0 } :
              CsmaNetDevice) with
          m_rxCallback := ReceiveCallback.NonPromiscReceiveFromDevice 0 } }).devices 0).GetRxDevice
        = some { ({ CsmaNetDevice.fresh with
            m_promiscRxCallback := PromiscReceiveCallback.PromiscReceiveFromDevice 0 } :
              CsmaNetDevice) with
          m_rxCallback := ReceiveCallback.NonPromiscReceiveFromDevice 0 }))).1
  refine ⟨w1, _, _, h1, h2, h3, ?_, ?_, ?_, ?_, ?_⟩
  · simp [World.setDevice, EthernetNetDevice.GetRxDevice]
  · simp [World.setDevice, EthernetNetDevice.GetRxDevice]
  · simp [World.setDevice, EthernetNetDevice.GetRxDevice]
  · simpa [World.setDevice] using hp1
  · simpa [World.setDevice, EthernetNetDevice.GetTxDevice] using htx1

/-- C15, counterexample.  A disposed link still refers to its endpoints: on the link to
which endpoints 0 and 1 were attached, after `DoDispose` both sub-links are gone, yet
`GetNDevices ()` is still 2 and `GetDevice (0)` and `GetDevice (1)` still return endpoints 0
and 1. -/
theorem disposed_link_keeps_endpoints :
    attachAll (World.boot 0) 0 [some 0, some 1] = Except.ok World.bothAttached ∧
    (World.bothAttached.channels 0).DoDispose.m_chan0 = none ∧
    (World.bothAttached.channels 0).DoDispose.m_chan1 = none ∧
    (World.bothAttached.channels 0).DoDispose.GetNDevices = 2 ∧
    (World.bothAttached.channels 0).DoDispose.GetDevice 0 = Except.ok (some 0) ∧
    (World.bothAttached.channels 0).DoDispose.GetDevice 1 = Except.ok (some 1) :=
  ⟨rfl, rfl, rfl, rfl, rfl, rfl⟩

/-- C15, amended.  On disposal, an endpoint that owns its interfaces calls `Dispose ()` on
its tx and then on its rx interface and clears its interface, link and node references,
leaving every link as it was; a link clears both sub-links and nothing else: its endpoint
references and its endpoint count stay, so that `GetDevice` and `GetNDevices` answer after
the disposal as before. -/
theorem disposal_effects (w : World) (E : DevId) (hE : (w.devices E).isLive = true)
    (c : EthernetChannel) :
    (∃ w1, EthernetNetDevice.DoDispose w E = Except.ok w1 ∧
      w1.trace = w.trace ++
        [Event.csmaDispose ⟨E, SubIface.tx⟩, Event.csmaDispose ⟨E, SubIface.rx⟩] ∧
      (w1.devices E).GetTxDevice = none ∧ (w1.devices E).GetRxDevice = none ∧
      (w1.devices E).GetChannel = none ∧ (w1.devices E).GetNode = none ∧
      w1.channels = w.channels) ∧
    (c.DoDispose.m_chan0 = none ∧ c.DoDispose.m_chan1 = none ∧
      c.DoDispose.m_devices = c.m_devices ∧ c.DoDispose.GetNDevices = c.GetNDevices ∧
      ∀ i, c.DoDispose.GetDevice i = c.GetDevice i) := by
  obtain ⟨tx, rx, htx, hrx⟩ := (EthernetNetDevice.device_isLive_iff _).1 hE
  constructor
  · refine ⟨_, by simp [EthernetNetDevice.DoDispose, htx, hrx]; rfl, ?_, ?_, ?_, ?_, ?_, ?_⟩
    · simp [World.setDevice]
    · simp [World.setDevice, EthernetNetDevice.GetTxDevice]
    · simp [World.setDevice, EthernetNetDevice.GetRxDevice]
    · simp [World.setDevice, EthernetNetDevice.GetChannel]
    · simp [World.setDevice, EthernetNetDevice.GetNode]
    · rfl
  · exact ⟨rfl, rfl, rfl, rfl, fun _ => rfl⟩

/-- C15, witness: the disposal of a freshly created endpoint. -/
theorem disposal_effects_witness :
    ∃ w1, EthernetNetDevice.DoDispose (World.boot 0) 5 = Except.ok w1 ∧
      w1.trace = [Event.csmaDispose ⟨5, SubIface.tx⟩, Event.csmaDispose ⟨5, SubIface.rx⟩] ∧
      (w1.devices 5).GetTxDevice = none ∧ (w1.devices 5).GetRxDevice = none ∧
      (w1.devices 5).GetChannel = none ∧ (w1.devices 5).GetNode = none := by
  obtain ⟨w1, h1, h2, h3, h4, h5, h6, _⟩ :=
    (disposal_effects (World.boot 0) 5 rfl (EthernetChannel.ctor 0)).1
  exact ⟨w1, h1, h2, h3, h4, h5, h6⟩

/-- C13.  For every constructed trace fan-out with event name n, each of
`ConnectWithoutContext`, `Connect`, `DisconnectWithoutContext` and `Disconnect` makes exactly
the corresponding call on the primary target and then, if and only if there is a secondary
target, on the secondary target, each under the name n with the same callback (and context);
consequently, after a connect followed by a disconnect of the same callback, no present
target holds that subscription any more, the other subscriptions of the targets and all
subscriptions of other objects being as before. -/
theorem fan_out_applies_to_every_present_target (name : String) (obj1 obj2 : Option ObjectRef)
    (p : ProxyTracedCallback) (hctor : ProxyTracedCallback.ctor name obj1 obj2 = Except.ok p)
    (T : TraceState) (cb : CallbackId) (context : String) :
    ∃ o1, obj1 = some o1 ∧
    (∃ T1, p.ConnectWithoutContext T cb = Except.ok T1 ∧ T1.calls = T.calls ++
      fanOutCalls TraceOp.TraceConnectWithoutContext name none cb o1 obj2) ∧
    (∃ T1, p.Connect T cb context = Except.ok T1 ∧ T1.calls = T.calls ++
      fanOutCalls TraceOp.TraceConnect name (some context) cb o1 obj2) ∧
    (∃ T1, p.DisconnectWithoutContext T cb = Except.ok T1 ∧ T1.calls = T.calls ++
      fanOutCalls TraceOp.TraceDisconnectWithoutContext name none cb o1 obj2) ∧
    (∃ T1, p.Disconnect T cb context = Except.ok T1 ∧ T1.calls = T.calls ++
      fanOutCalls TraceOp.TraceDisconnect name (some context) cb o1 obj2) ∧
    (∃ T1 T2, p.Connect T cb context = Except.ok T1 ∧
      p.Disconnect T1 cb context = Except.ok T2 ∧
      ∀ o, (T2.connected o = if o = o1 ∨ obj2 = some o
          then (T.connected o).filter (fun s => decide (s ≠ ⟨name, some context, cb⟩))
          else T.connected o) ∧
        (o = o1 ∨ obj2 = some o → (⟨name, some context, cb⟩ : Subscription) ∉ T2.connected o)) ∧
    (∃ T1 T2, p.ConnectWithoutContext T cb = Except.ok T1 ∧
      p.DisconnectWithoutContext T1 cb = Except.ok T2 ∧
      ∀ o, (T2.connected o = if o = o1 ∨ obj2 = some o
          then (T.connected o).filter (fun s => decide (s ≠ ⟨name, none, cb⟩))
          else T.connected o) ∧
        (o = o1 ∨ obj2 = some o → (⟨name, none, cb⟩ : Subscription) ∉ T2.connected o)) := by
  obtain ⟨o1, ho1, rfl⟩ := ProxyTracedCallback.ctor_inv name obj1 obj2 p hctor
  refine ⟨o1, ho1, ?_, ?_, ?_, ?_, ?_, ?_⟩
  · cases obj2 <;>
      simp [ProxyTracedCallback.ConnectWithoutContext, ObjectRef.TraceConnectWithoutContext,
        fanOutCalls]
  · cases obj2 <;>
      simp [ProxyTracedCallback.Connect, ObjectRef.TraceConnect, fanOutCalls]
  · cases obj2 <;>
      simp [ProxyTracedCallback.DisconnectWithoutContext,
        ObjectRef.TraceDisconnectWithoutContext, fanOutCalls]
  · cases obj2 <;>
      simp [ProxyTracedCallback.Disconnect, ObjectRef.TraceDisconnect, fanOutCalls]
  · have key := ProxyTracedCallback.connect_then_disconnect name o1 obj2 T cb context
    obtain ⟨T1, T2, h1, h2, h3⟩ := key
    refine ⟨T1, T2, h1, h2, fun o => ⟨h3 o, fun ho => ?_⟩⟩
    rw [h3 o, if_pos ho]
    simp [List.mem_filter]
  · have key := ProxyTracedCallback.connect_then_disconnect_without_context name o1 obj2 T cb
    obtain ⟨T1, T2, h1, h2, h3⟩ := key
    refine ⟨T1, T2, h1, h2, fun o => ⟨h3 o, fun ho => ?_⟩⟩
    rw [h3 o, if_pos ho]
    simp [List.mem_filter]

/-- C13, witness: a fan-out over the objects 1 and 2 connects callback 5 with a context. -/
theorem fan_out_applies_to_every_present_target_witness :
    ProxyTracedCallback.ctor "PromiscSniffer" (some (ObjectRef.object 1))
        (some (ObjectRef.object 2)) =
      Except.ok ⟨"PromiscSniffer", some (ObjectRef.object 1), some (ObjectRef.object 2)⟩ ∧
    ∃ T1, (⟨"PromiscSniffer", some (ObjectRef.object 1), some (ObjectRef.object 2)⟩ :
        ProxyTracedCallback).Connect TraceState.empty 5 "/NodeList/0" = Except.ok T1 ∧
      T1.calls =
        [⟨TraceOp.TraceConnect, ObjectRef.object 1, "PromiscSniffer", some "/NodeList/0", 5⟩,
         ⟨TraceOp.TraceConnect, ObjectRef.object 2, "PromiscSniffer", some "/NodeList/0", 5⟩] := by
  have hctor := ProxyTracedCallback.ctor_ok "PromiscSniffer" (ObjectRef.object 1)
    (some (ObjectRef.object 2))
  obtain ⟨o1, ho1, _, ⟨T1, h1, h2⟩, _⟩ := fan_out_applies_to_every_present_target
    "PromiscSniffer" (some (ObjectRef.object 1)) (some (ObjectRef.object 2)) _ hctor
    TraceState.empty 5 "/NodeList/0"
  have e : ObjectRef.object 1 = o1 := Option.some.inj ho1
  subst e
  exact ⟨hctor, T1, h1, h2⟩

/-- C14.  A trace fan-out cannot be constructed without a primary target: for every event
name and every secondary target, present or absent, the constructor fails the assertion when
the primary target is null; hence every constructed fan-out has its primary target, and none
of the four subscribe and unsubscribe operations ever meets an absent primary target. -/
theorem fan_out_requires_primary_target (name : String) (obj2 : Option ObjectRef) :
    ProxyTracedCallback.ctor name none obj2 = Except.error Fatal.assertion ∧
    ∀ obj1 p, ProxyTracedCallback.ctor name obj1 obj2 = Except.ok p →
      p.m_obj1 = obj1 ∧ p.m_obj1.isSome = true ∧
      ∀ T cb context,
        (p.ConnectWithoutContext T cb).toBool = true ∧ (p.Connect T cb context).toBool = true ∧
        (p.DisconnectWithoutContext T cb).toBool = true ∧
        (p.Disconnect T cb context).toBool = true := by
  refine ⟨by simp [ProxyTracedCallback.ctor], ?_⟩
  intro obj1 p h
  obtain ⟨o1, ho1, rfl⟩ := ProxyTracedCallback.ctor_inv name obj1 obj2 _ h
  refine ⟨ho1.symm, rfl, fun T cb context => ?_⟩
  cases obj2 <;>
    simp [ProxyTracedCallback.ConnectWithoutContext, ProxyTracedCallback.Connect,
      ProxyTracedCallback.DisconnectWithoutContext, ProxyTracedCallback.Disconnect,
      Except.toBool]

/-- C14, witness: with a primary target the constructor succeeds, without one it fails,
whether or not a secondary target is given. -/
theorem fan_out_requires_primary_target_witness :
    ProxyTracedCallback.ctor "MacTx" none (some (ObjectRef.object 2)) =
      Except.error Fatal.assertion ∧
    ∃ p, ProxyTracedCallback.ctor "MacTx" (some (ObjectRef.object 1)) (some (ObjectRef.object 2)) =
        Except.ok p ∧ p.m_obj1 = some (ObjectRef.object 1) := by
  have h := fan_out_requires_primary_target "MacTx" (some (ObjectRef.object 2))
  exact ⟨h.1, _, ProxyTracedCallback.ctor_ok _ _ _,
    (h.2 _ _ (ProxyTracedCallback.ctor_ok "MacTx" (ObjectRef.object 1)
      (some (ObjectRef.object 2)))).1⟩

/-- C17.  The constructor of every endpoint builds its ten fan-outs so that `MacTx`,
`MacTxDrop`, `PhyTxBegin`, `PhyTxEnd` and `PhyTxDrop` have the tx interface as their only
target, `MacPromiscRx`, `MacRx`, `PhyRxEnd` and `PhyRxDrop` have the rx interface as their
only target, and `PromiscSniffer` alone has both, tx first.  Hence connecting a callback to
one of the nine one-target sources makes exactly one call, on that interface, after which a
firing of the source on that interface invokes the callback once more than before and no
other object has gained a subscription; connecting it to `PromiscSniffer` makes one call on
each interface, after which a firing on either interface invokes it once more than before. -/
theorem endpoint_trace_sources_configuration (self : DevId) (T : TraceState) (cb : CallbackId) :
    ∃ t, EthernetNetDevice.ctorTraces self = Except.ok t ∧
      t.m_macTxTrace = ⟨"MacTx", some (ObjectRef.csmaNetDevice ⟨self, SubIface.tx⟩), none⟩ ∧
      t.m_macTxDropTrace =
        ⟨"MacTxDrop", some (ObjectRef.csmaNetDevice ⟨self, SubIface.tx⟩), none⟩ ∧
      t.m_macPromiscRxTrace =
        ⟨"MacPromiscRx", some (ObjectRef.csmaNetDevice ⟨self, SubIface.rx⟩), none⟩ ∧
      t.m_macRxTrace = ⟨"MacRx", some (ObjectRef.csmaNetDevice ⟨self, SubIface.rx⟩), none⟩ ∧
      t.m_phyTxBeginTrace =
        ⟨"PhyTxBegin", some (ObjectRef.csmaNetDevice ⟨self, SubIface.tx⟩), none⟩ ∧
      t.m_phyTxEndTrace =
        ⟨"PhyTxEnd", some (ObjectRef.csmaNetDevice ⟨self, SubIface.tx⟩), none⟩ ∧
      t.m_phyTxDropTrace =
        ⟨"PhyTxDrop", some (ObjectRef.csmaNetDevice ⟨self, SubIface.tx⟩), none⟩ ∧
      t.m_phyRxEndTrace =
        ⟨"PhyRxEnd", some (ObjectRef.csmaNetDevice ⟨self, SubIface.rx⟩), none⟩ ∧
      t.m_phyRxDropTrace =
        ⟨"PhyRxDrop", some (ObjectRef.csmaNetDevice ⟨self, SubIface.rx⟩), none⟩ ∧
      t.m_promiscSnifferTrace =
        ⟨"PromiscSniffer", some (ObjectRef.csmaNetDevice ⟨self, SubIface.tx⟩),
          some (ObjectRef.csmaNetDevice ⟨self, SubIface.rx⟩)⟩ ∧
      (∀ n, n ∈ ["MacTx", "MacTxDrop", "PhyTxBegin", "PhyTxEnd", "PhyTxDrop"] →
        ∃ T1, t.TraceConnectWithoutContext T n cb = Except.ok (true, T1) ∧
          T1.calls = T.calls ++ [⟨TraceOp.TraceConnectWithoutContext,
            ObjectRef.csmaNetDevice ⟨self, SubIface.tx⟩, n, none, cb⟩] ∧
          T1.deliveries (ObjectRef.csmaNetDevice ⟨self, SubIface.tx⟩) n cb =
            T.deliveries (ObjectRef.csmaNetDevice ⟨self, SubIface.tx⟩) n cb + 1 ∧
          ∀ o, o ≠ ObjectRef.csmaNetDevice ⟨self, SubIface.tx⟩ →
            T1.connected o = T.connected o) ∧
      (∀ n, n ∈ ["MacPromiscRx", "MacRx", "PhyRxEnd", "PhyRxDrop"] →
        ∃ T1, t.TraceConnectWithoutContext T n cb = Except.ok (true, T1) ∧
          T1.calls = T.calls ++ [⟨TraceOp.TraceConnectWithoutContext,
            ObjectRef.csmaNetDevice ⟨self, SubIface.rx⟩, n, none, cb⟩] ∧
          T1.deliveries (ObjectRef.csmaNetDevice ⟨self, SubIface.rx⟩) n cb =
            T.deliveries (ObjectRef.csmaNetDevice ⟨self, SubIface.rx⟩) n cb + 1 ∧
          ∀ o, o ≠ ObjectRef.csmaNetDevice ⟨self, SubIface.rx⟩ →
            T1.connected o = T.connected o) ∧
      (∃ T1, t.TraceConnectWithoutContext T "PromiscSniffer" cb = Except.ok (true, T1) ∧
        T1.calls = T.calls ++
          [⟨TraceOp.TraceConnectWithoutContext, ObjectRef.csmaNetDevice ⟨self, SubIface.tx⟩,
              "PromiscSniffer", none, cb⟩,
           ⟨TraceOp.TraceConnectWithoutContext, ObjectRef.csmaNetDevice ⟨self, SubIface.rx⟩,
              "PromiscSniffer", none, cb⟩] ∧
        T1.deliveries (ObjectRef.csmaNetDevice ⟨self, SubIface.tx⟩) "PromiscSniffer" cb =
          T.deliveries (ObjectRef.csmaNetDevice ⟨self, SubIface.tx⟩) "PromiscSniffer" cb + 1 ∧
        T1.deliveries (ObjectRef.csmaNetDevice ⟨self, SubIface.rx⟩) "PromiscSniffer" cb =
          T.deliveries (ObjectRef.csmaNetDevice ⟨self, SubIface.rx⟩) "PromiscSniffer" cb + 1 ∧
        ∀ o, o ≠ ObjectRef.csmaNetDevice ⟨self, SubIface.tx⟩ →
          o ≠ ObjectRef.csmaNetDevice ⟨self, SubIface.rx⟩ → T1.connected o = T.connected o) := by
  refine ⟨EthernetTraces.created self, EthernetNetDevice.ctorTraces_eq self, rfl, rfl, rfl, rfl,
    rfl, rfl, rfl, rfl, rfl, rfl, ?_, ?_, ?_⟩
  · intro n hn
    apply EthernetTraces.connect_single
    simp only [List.mem_cons, List.mem_singleton, List.mem_nil_iff, or_false] at hn
    rcases hn with rfl | rfl | rfl | rfl | rfl <;>
      simp [EthernetTraces.traceSource, EthernetTraces.created]
  · intro n hn
    apply EthernetTraces.connect_single
    simp only [List.mem_cons, List.mem_singleton, List.mem_nil_iff, or_false] at hn
    rcases hn with rfl | rfl | rfl | rfl <;>
      simp [EthernetTraces.traceSource, EthernetTraces.created]
  · apply EthernetTraces.connect_double
    · simp
    · simp [EthernetTraces.traceSource, EthernetTraces.created]

/-- C17, witness: on endpoint 0 a callback connected to `MacRx` is registered on the rx
interface only, and one connected to `PromiscSniffer` on both interfaces. -/
theorem endpoint_trace_sources_configuration_witness :
    ∃ t T1 T2, EthernetNetDevice.ctorTraces 0 = Except.ok t ∧
      t.TraceConnectWithoutContext TraceState.empty "MacRx" 7 = Except.ok (true, T1) ∧
      T1.calls = [⟨TraceOp.TraceConnectWithoutContext,
        ObjectRef.csmaNetDevice ⟨0, SubIface.rx⟩, "MacRx", none, 7⟩] ∧
      T1.connected (ObjectRef.csmaNetDevice ⟨0, SubIface.tx⟩) = [] ∧
      t.TraceConnectWithoutContext TraceState.empty "PromiscSniffer" 7 = Except.ok (true, T2) ∧
      T2.deliveries (ObjectRef.csmaNetDevice ⟨0, SubIface.tx⟩) "PromiscSniffer" 7 = 1 ∧
      T2.deliveries (ObjectRef.csmaNetDevice ⟨0, SubIface.rx⟩) "PromiscSniffer" 7 = 1 := by
  obtain ⟨t, ht, _, _, _, _, _, _, _, _, _, _, _, hrx, T2, h2, _, d1, d2, _⟩ :=
    endpoint_trace_sources_configuration 0 TraceState.empty 7
  obtain ⟨T1, h1, c1, _, others⟩ := hrx "MacRx" (by simp)
  exact ⟨t, T1, T2, ht, h1, c1, others _ (by decide), h2, d1, d2⟩

end Ethernet
